import Mathlib

/-!
JETI SDK interface: declarations of the four public headers.

A shallow embedding of `jeti_core.h`, `jeti_radio.h`, `jeti_radio_ex.h` and
`jeti_spectro_ex.h` (version 4.8.10).  The headers consist of function
prototypes and `#define`d error codes; both are transcribed as data, one row
per source line, keeping the source spelling of every type and identifier.
-/

namespace Jeti

/-! ## Data model of a C prototype -/

/-- The type names that occur in the prototypes, spelled as in the source
(`unsigned long long` is written with underscores). -/
inductive CType where
  | BOOL | BYTE | DOUBLE | DWORD | DWORD_PTR | FLOAT | HANDLE | HWND
  | INT32 | WCHAR | WORD | char | double | float | int | unsigned_long_long
  deriving DecidableEq

/-- One formal parameter: its base type, whether it is declared with a `*`,
and its name. -/
structure Param where
  ty : CType
  isPtr : Bool
  name : String
  deriving DecidableEq

/-- One prototype.  Every prototype of the four headers has the form
`T __stdcall name (parameters);` with `T` a plain type name: return type,
function name, parameters. -/
structure Proto where
  ret : CType
  name : String
  params : List Param
  deriving DecidableEq

/-- A parameter passed by value. -/
def val (t : CType) (n : String) : Param := ⟨t, false, n⟩

/-- A parameter declared as a pointer. -/
def ptr (t : CType) (n : String) : Param := ⟨t, true, n⟩

/-! ## The prototypes -/

/-- The function prototypes of jeti_core.h, in source order (lines 27-224). -/
def jeti_core_h_prototypes : List Proto := [
  Proto.mk CType.DWORD "JETI_SetLicKey" [ptr CType.char "cLicKey"],
  Proto.mk CType.DWORD "JETI_ImportSLM" [ptr CType.char "cMatrixFile"],
  Proto.mk CType.DWORD "JETI_IgnoreSLM" [val CType.BYTE "bIgnore"],
  Proto.mk CType.DWORD "JETI_GetNumDevices" [ptr CType.DWORD "dwNumDevices"],
  Proto.mk CType.DWORD "JETI_GetSerialDevice" [val CType.DWORD "dwDeviceNum", ptr CType.char "cBoardSerialNr", ptr CType.char "cSpecSerialNr", ptr CType.char "cDeviceSerialNr"],
  Proto.mk CType.DWORD "JETI_GetDeviceInfo" [val CType.DWORD "dwDeviceNum", ptr CType.BYTE "bConnType", ptr CType.BYTE "bDeviceType", ptr CType.char "cDeviceSerial", ptr CType.WORD "wComPortNr", ptr CType.DWORD "dwBaudrate", ptr CType.char "cIPAddress", ptr CType.char "cUSBSerial", ptr CType.unsigned_long_long "btAddress"],
  Proto.mk CType.DWORD "JETI_GetDeviceInfoEx" [val CType.DWORD "dwDeviceNum", ptr CType.BYTE "bConnType", ptr CType.BYTE "bDeviceType", ptr CType.char "cDeviceSerial", ptr CType.WORD "wComPortNr", ptr CType.DWORD "dwBaudrate", ptr CType.char "cIPAddress", ptr CType.char "cUSBSerial", ptr CType.unsigned_long_long "btAddress", ptr CType.WCHAR "wcBTLEDevicePath"],
  Proto.mk CType.DWORD "JETI_OpenDevice" [val CType.DWORD "dwDeviceNum", ptr CType.DWORD_PTR "dwDevice"],
  Proto.mk CType.DWORD "JETI_OpenCOMDevice" [val CType.DWORD "dwComPort", val CType.DWORD "dwBaudrate", ptr CType.DWORD_PTR "dwDevice"],
  Proto.mk CType.DWORD "JETI_OpenTCPDevice" [ptr CType.char "cIPAddr", ptr CType.DWORD_PTR "dwDevice"],
  Proto.mk CType.DWORD "JETI_OpenFTDIDevice" [ptr CType.char "cUSBSerial", ptr CType.DWORD_PTR "dwDevice"],
  Proto.mk CType.DWORD "JETI_OpenBTDevice" [val CType.unsigned_long_long "btAddress", ptr CType.DWORD_PTR "dwDevice"],
  Proto.mk CType.DWORD "JETI_OpenBTLEDevice" [ptr CType.WCHAR "wcBTLEDevicePath", ptr CType.DWORD_PTR "dwDevice"],
  Proto.mk CType.DWORD "JETI_CloseDevice" [val CType.DWORD_PTR "dwDevice"],
  Proto.mk CType.DWORD "JETI_GetIdentifier" [val CType.DWORD_PTR "dwDevice", ptr CType.char "cIdentifier"],
  Proto.mk CType.DWORD "JETI_ArbitraryCommand" [val CType.DWORD_PTR "dwDevice", ptr CType.char "cCommand", ptr CType.char "cAnswer"],
  Proto.mk CType.DWORD "JETI_DeviceWrite" [val CType.DWORD_PTR "dwDevice", ptr CType.char "cCommand", val CType.DWORD "dwBytesToWrite", val CType.DWORD "dwTimeout"],
  Proto.mk CType.DWORD "JETI_DeviceRead" [val CType.DWORD_PTR "dwDevice", ptr CType.char "cResponse", val CType.DWORD "dwBytesToRead", ptr CType.DWORD "dwBytesRead", val CType.DWORD "dwTimeout"],
  Proto.mk CType.DWORD "JETI_DeviceReadTerm" [val CType.DWORD_PTR "dwDevice", ptr CType.char "cResponse", val CType.DWORD "dwMaxBytes", val CType.DWORD "dwTimeout"],
  Proto.mk CType.DWORD "JETI_DataReceived" [val CType.DWORD_PTR "dwDevice", val CType.int "iMaxLength"],
  Proto.mk CType.DWORD "JETI_Reset" [val CType.DWORD_PTR "dwDevice"],
  Proto.mk CType.DWORD "JETI_HardReset" [val CType.DWORD_PTR "dwDevice"],
  Proto.mk CType.DWORD "JETI_Break" [val CType.DWORD_PTR "dwDevice"],
  Proto.mk CType.DWORD "JETI_InitMeasure" [val CType.DWORD_PTR "dwDevice"],
  Proto.mk CType.DWORD "JETI_PreTrigMeasure" [val CType.DWORD_PTR "dwDevice"],
  Proto.mk CType.DWORD "JETI_MeasureStatusCore" [val CType.DWORD_PTR "dwDevice", ptr CType.BOOL "boStatus"],
  Proto.mk CType.DWORD "JETI_WaitReadTrigger" [val CType.DWORD_PTR "dwDevice", ptr CType.INT32 "iSpec", val CType.DWORD "dwTimeout"],
  Proto.mk CType.DWORD "JETI_StartAdaption" [val CType.DWORD_PTR "dwDevice", val CType.BOOL "boReference"],
  Proto.mk CType.DWORD "JETI_CheckAdaptionStat" [val CType.DWORD_PTR "dwDevice", ptr CType.FLOAT "fTint", ptr CType.WORD "wAverage", ptr CType.BOOL "boStatus"],
  Proto.mk CType.DWORD "JETI_ReadCalib" [val CType.DWORD_PTR "dwDevice", val CType.DWORD "dwCalibNr", ptr CType.char "cMode", ptr CType.char "cRemark", ptr CType.DWORD "dwBegin", ptr CType.DWORD "dwEnd", ptr CType.DWORD "dwStep", ptr CType.DWORD "dwTint", ptr CType.double "dValue"],
  Proto.mk CType.DWORD "JETI_WriteCalib" [val CType.DWORD_PTR "dwDevice", val CType.DWORD "dwCalibNr", ptr CType.char "cMode", ptr CType.char "cRemark", val CType.DWORD "dwBegin", val CType.DWORD "dwEnd", val CType.DWORD "dwStep", val CType.DWORD "dwTint", ptr CType.double "dValue"],
  Proto.mk CType.DWORD "JETI_DeleteCalib" [val CType.DWORD_PTR "dwDevice", val CType.DWORD "dwCalibNr"],
  Proto.mk CType.DWORD "JETI_GetCalibRange" [val CType.DWORD_PTR "dwDevice", ptr CType.DWORD "dwBegin", ptr CType.DWORD "dwEnd", ptr CType.DWORD "dwStep"],
  Proto.mk CType.DWORD "JETI_SetCalib" [val CType.DWORD_PTR "dwDevice", val CType.BYTE "bCalibNr"],
  Proto.mk CType.DWORD "JETI_GetCalib" [val CType.DWORD_PTR "dwDevice", ptr CType.BYTE "bCalibNr"],
  Proto.mk CType.DWORD "JETI_MeasCompDark" [val CType.DWORD_PTR "dwDevice"],
  Proto.mk CType.DWORD "JETI_GetComPortHandle" [val CType.DWORD_PTR "dwDevice", ptr CType.HANDLE "hComPortHandle"],
  Proto.mk CType.DWORD "JETI_MeasureADC1" [val CType.DWORD_PTR "dwDevice", ptr CType.WORD "wADC1"],
  Proto.mk CType.DWORD "JETI_MeasureADC2" [val CType.DWORD_PTR "dwDevice", ptr CType.WORD "wADC2"],
  Proto.mk CType.DWORD "JETI_ReadUserData64" [val CType.DWORD_PTR "dwDevice", ptr CType.BYTE "bData", val CType.DWORD "dwStart", val CType.DWORD "dwEnd"],
  Proto.mk CType.DWORD "JETI_WriteUserData64" [val CType.DWORD_PTR "dwDevice", ptr CType.BYTE "bData", val CType.DWORD "dwBlock"],
  Proto.mk CType.DWORD "JETI_GetCoreDLLVersion" [ptr CType.WORD "wMajorVersion", ptr CType.WORD "wMinorVersion", ptr CType.WORD "wBuildNumber"],
  Proto.mk CType.DWORD "JETI_GetFirmwareVersion" [val CType.DWORD_PTR "dwDevice", ptr CType.char "cVersionString"],
  Proto.mk CType.DWORD "JETI_GetDeviceType" [val CType.DWORD_PTR "dwDevice", ptr CType.BYTE "bDeviceType"],
  Proto.mk CType.DWORD "JETI_GetBatteryStat" [val CType.DWORD_PTR "dwDevice", ptr CType.float "fBattVolt", ptr CType.BYTE "bBattPercent", ptr CType.BYTE "bIsBattLoading"],
  Proto.mk CType.DWORD "JETI_GetLastError" [val CType.DWORD_PTR "dwDevice", ptr CType.DWORD "dwErrorCode"],
  Proto.mk CType.DWORD "JETI_GetEnquiry" [val CType.DWORD_PTR "dwDevice", ptr CType.DWORD "dwEnquiry"],
  Proto.mk CType.DWORD "JETI_SetCallbackFunction" [val CType.DWORD_PTR "dwDevice", val CType.BYTE "bEventChar", val CType.HWND "hMainWnd"],
  Proto.mk CType.DWORD "JETI_GetPixel" [val CType.DWORD_PTR "dwDevice", ptr CType.DWORD "dwPixel"],
  Proto.mk CType.DWORD "JETI_GetPixelBinning" [val CType.DWORD_PTR "dwDevice", ptr CType.BYTE "bPixBin"],
  Proto.mk CType.DWORD "JETI_GetFit" [val CType.DWORD_PTR "dwDevice", ptr CType.FLOAT "fFit"],
  Proto.mk CType.DWORD "JETI_GetSDelay" [val CType.DWORD_PTR "dwDevice", ptr CType.DWORD "dwSDelay"],
  Proto.mk CType.DWORD "JETI_SetSDelay" [val CType.DWORD_PTR "dwDevice", val CType.DWORD "dwSDelay"],
  Proto.mk CType.DWORD "JETI_GetTint" [val CType.DWORD_PTR "dwDevice", ptr CType.float "fTint"],
  Proto.mk CType.DWORD "JETI_GetADCRes" [val CType.DWORD_PTR "dwDevice", ptr CType.BYTE "bADCRes"],
  Proto.mk CType.DWORD "JETI_GetSplitTime" [val CType.DWORD_PTR "dwDevice", ptr CType.DWORD "dwSplitTime"],
  Proto.mk CType.DWORD "JETI_GetBorder" [val CType.DWORD_PTR "dwDevice", ptr CType.BYTE "bBorderMin", ptr CType.BYTE "bBorderMax"],
  Proto.mk CType.DWORD "JETI_GetDistance" [val CType.DWORD_PTR "dwDevice", ptr CType.DWORD "dwDistance"],
  Proto.mk CType.DWORD "JETI_SetDistance" [val CType.DWORD_PTR "dwDevice", val CType.DWORD "dwDistance"],
  Proto.mk CType.DWORD "JETI_GetParamBlock" [val CType.DWORD_PTR "dwDevice", ptr CType.BYTE "bParam"],
  Proto.mk CType.DWORD "JETI_SetParamBlock" [val CType.DWORD_PTR "dwDevice", ptr CType.BYTE "bParam"],
  Proto.mk CType.DWORD "JETI_GetOptTrigg" [val CType.DWORD_PTR "dwDevice", ptr CType.BOOL "boOptTrigg"],
  Proto.mk CType.DWORD "JETI_SetLaserIntensity" [val CType.DWORD_PTR "dwDevice", val CType.DWORD "dwIntensity", val CType.DWORD "dwModulation"],
  Proto.mk CType.DWORD "JETI_SetTrigger" [val CType.DWORD_PTR "dwDevice", val CType.DWORD "dwTriggerMode"],
  Proto.mk CType.DWORD "JETI_GetTrigTimeout" [val CType.DWORD_PTR "dwDevice", ptr CType.WORD "wTimeout"],
  Proto.mk CType.DWORD "JETI_SetTrigTimeout" [val CType.DWORD_PTR "dwDevice", val CType.WORD "wTimeout"],
  Proto.mk CType.DWORD "JETI_SetFlashMode" [val CType.DWORD_PTR "dwDevice", val CType.BOOL "boFlashMode"],
  Proto.mk CType.DWORD "JETI_SetFlashCycle" [val CType.DWORD_PTR "dwDevice", val CType.DWORD "dwFlashCycle"],
  Proto.mk CType.DWORD "JETI_GetCorrectionStat" [val CType.DWORD_PTR "dwDevice", ptr CType.BOOL "boCorrStat"],
  Proto.mk CType.DWORD "JETI_SetCorrectionStat" [val CType.DWORD_PTR "dwDevice", val CType.BOOL "boCorrStat"],
  Proto.mk CType.DWORD "JETI_GetCorrectionRange" [val CType.DWORD_PTR "dwDevice", ptr CType.DWORD "dwCorrStart", ptr CType.DWORD "dwCorrEnd"],
  Proto.mk CType.DWORD "JETI_SetCorrectionRange" [val CType.DWORD_PTR "dwDevice", val CType.DWORD "dwCorrStart", val CType.DWORD "dwCorrEnd"],
  Proto.mk CType.DWORD "JETI_GetOffsetCorrRange" [val CType.DWORD_PTR "dwDevice", ptr CType.DWORD "dwCorrStart", ptr CType.DWORD "dwCorrEnd"],
  Proto.mk CType.DWORD "JETI_SetOffsetCorrRange" [val CType.DWORD_PTR "dwDevice", val CType.DWORD "dwCorrStart", val CType.DWORD "dwCorrEnd"],
  Proto.mk CType.DWORD "JETI_GetCorrectionCoeff" [val CType.DWORD_PTR "dwDevice", ptr CType.FLOAT "fCorrCoeff"],
  Proto.mk CType.DWORD "JETI_SetCorrectionCoeff" [val CType.DWORD_PTR "dwDevice", ptr CType.FLOAT "fCorrCoeff"],
  Proto.mk CType.DWORD "JETI_GetCutoffStat" [val CType.DWORD_PTR "dwDevice", ptr CType.BOOL "boCutoffStat"],
  Proto.mk CType.DWORD "JETI_SetCutoffStat" [val CType.DWORD_PTR "dwDevice", val CType.BOOL "boCutoffStat"],
  Proto.mk CType.DWORD "JETI_GetBaudrate" [val CType.DWORD_PTR "dwDevice", ptr CType.DWORD "dwBaudrate"],
  Proto.mk CType.DWORD "JETI_GetSLMEnable" [val CType.DWORD_PTR "dwDevice", ptr CType.BYTE "bSLMEnable"],
  Proto.mk CType.DWORD "JETI_SetSLMEnable" [val CType.DWORD_PTR "dwDevice", val CType.BYTE "bSLMEnable"],
  Proto.mk CType.DWORD "JETI_SetChannelConf" [val CType.DWORD_PTR "dwDevice", ptr CType.char "cChannelConf"],
  Proto.mk CType.DWORD "JETI_GetChannelConf" [val CType.DWORD_PTR "dwDevice", ptr CType.char "cChannelConf"],
  Proto.mk CType.DWORD "JETI_SetLampMode" [val CType.DWORD_PTR "dwDevice", val CType.BYTE "bLampMode"],
  Proto.mk CType.DWORD "JETI_GetLampMode" [val CType.DWORD_PTR "dwDevice", ptr CType.BYTE "bLampMode"],
  Proto.mk CType.DWORD "JETI_SetFlash" [val CType.DWORD_PTR "dwDevice", val CType.float "fInterval", val CType.float "fPulselen"],
  Proto.mk CType.DWORD "JETI_GetFlash" [val CType.DWORD_PTR "dwDevice", ptr CType.float "fInterval", ptr CType.float "fPulselen"],
  Proto.mk CType.DWORD "JETI_GetLaserStat" [val CType.DWORD_PTR "dwDevice", ptr CType.BOOL "boLaserStat"],
  Proto.mk CType.DWORD "JETI_SetLaserStat" [val CType.DWORD_PTR "dwDevice", val CType.BOOL "boLaserStat"],
  Proto.mk CType.DWORD "JETI_GetShutterStat" [val CType.DWORD_PTR "dwDevice", ptr CType.BOOL "boShutterStat"],
  Proto.mk CType.DWORD "JETI_SetShutterStat" [val CType.DWORD_PTR "dwDevice", val CType.BOOL "boShutterStat"],
  Proto.mk CType.DWORD "JETI_GetMeasHead" [val CType.DWORD_PTR "dwDevice", ptr CType.BYTE "bMeasHead"],
  Proto.mk CType.DWORD "JETI_GetAux1Stat" [val CType.DWORD_PTR "dwDevice", ptr CType.BOOL "boAuxStat"],
  Proto.mk CType.DWORD "JETI_SetAux1Stat" [val CType.DWORD_PTR "dwDevice", val CType.BOOL "boAuxStat"],
  Proto.mk CType.DWORD "JETI_GetAux2Stat" [val CType.DWORD_PTR "dwDevice", ptr CType.BOOL "boAuxStat"],
  Proto.mk CType.DWORD "JETI_SetAux2Stat" [val CType.DWORD_PTR "dwDevice", val CType.BOOL "boAuxStat"],
  Proto.mk CType.DWORD "JETI_AuxOut1" [val CType.DWORD_PTR "dwDevice", val CType.BOOL "boAux1"],
  Proto.mk CType.DWORD "JETI_AuxOut1Stat" [val CType.DWORD_PTR "dwDevice", ptr CType.BOOL "boAux1Stat"],
  Proto.mk CType.DWORD "JETI_AuxOut2" [val CType.DWORD_PTR "dwDevice", val CType.BOOL "boAux2"],
  Proto.mk CType.DWORD "JETI_AuxOut2Stat" [val CType.DWORD_PTR "dwDevice", ptr CType.BOOL "boAux2Stat"],
  Proto.mk CType.DWORD "JETI_AuxOut3" [val CType.DWORD_PTR "dwDevice", val CType.BOOL "boAux3"],
  Proto.mk CType.DWORD "JETI_AuxOut3Stat" [val CType.DWORD_PTR "dwDevice", ptr CType.BOOL "boAux3Stat"],
  Proto.mk CType.DWORD "JETI_AuxOut4" [val CType.DWORD_PTR "dwDevice", val CType.BOOL "boAux4"],
  Proto.mk CType.DWORD "JETI_AuxOut4Stat" [val CType.DWORD_PTR "dwDevice", ptr CType.BOOL "boAux4Stat"],
  Proto.mk CType.DWORD "JETI_AuxOut5" [val CType.DWORD_PTR "dwDevice", val CType.BOOL "boAux5"],
  Proto.mk CType.DWORD "JETI_AuxOut5Stat" [val CType.DWORD_PTR "dwDevice", ptr CType.BOOL "boAux5Stat"],
  Proto.mk CType.DWORD "JETI_AuxIn1Stat" [val CType.DWORD_PTR "dwDevice", ptr CType.BOOL "boAuxIn1Stat"],
  Proto.mk CType.DWORD "JETI_AuxIn2Stat" [val CType.DWORD_PTR "dwDevice", ptr CType.BOOL "boAuxIn2Stat"],
  Proto.mk CType.DWORD "JETI_GetFlickerFreq" [val CType.DWORD_PTR "dwDevice", ptr CType.float "fFlickerFreq", ptr CType.DWORD "dwWarning"],
  Proto.mk CType.DWORD "JETI_SetSyncFreq" [val CType.DWORD_PTR "dwDevice", val CType.float "fSyncFreq"],
  Proto.mk CType.DWORD "JETI_GetSyncFreq" [val CType.DWORD_PTR "dwDevice", ptr CType.float "fSyncFreq"],
  Proto.mk CType.DWORD "JETI_SetSyncMode" [val CType.DWORD_PTR "dwDevice", val CType.BYTE "bSyncMode"],
  Proto.mk CType.DWORD "JETI_GetSyncMode" [val CType.DWORD_PTR "dwDevice", ptr CType.BYTE "bSyncMode"],
  Proto.mk CType.DWORD "JETI_GetDIOIn" [val CType.DWORD_PTR "dwDevice", ptr CType.BYTE "bDIOIn"],
  Proto.mk CType.DWORD "JETI_GetDIOOut" [val CType.DWORD_PTR "dwDevice", ptr CType.BYTE "bDIOOut"],
  Proto.mk CType.DWORD "JETI_SetDIOOut" [val CType.DWORD_PTR "dwDevice", val CType.BYTE "bDIOOut"],
  Proto.mk CType.DWORD "JETI_SetDIOOutPin" [val CType.DWORD_PTR "dwDevice", val CType.BYTE "bPinNr", val CType.BOOL "boDIOOut"],
  Proto.mk CType.DWORD "JETI_GetTemperature" [val CType.DWORD_PTR "dwDevice", ptr CType.FLOAT "fTemperature"],
  Proto.mk CType.DWORD "JETI_GetDarkmodeConf" [val CType.DWORD_PTR "dwDevice", ptr CType.BYTE "bDarkmode"],
  Proto.mk CType.DWORD "JETI_SetDarkmodeConf" [val CType.DWORD_PTR "dwDevice", val CType.BYTE "bDarkmode"],
  Proto.mk CType.DWORD "JETI_GetExposureConf" [val CType.DWORD_PTR "dwDevice", ptr CType.BYTE "bExpmode"],
  Proto.mk CType.DWORD "JETI_SetExposureConf" [val CType.DWORD_PTR "dwDevice", val CType.BYTE "bExpmode"],
  Proto.mk CType.DWORD "JETI_GetFunctionConf" [val CType.DWORD_PTR "dwDevice", ptr CType.BYTE "bPrevFunc", ptr CType.BYTE "bConfFunc"],
  Proto.mk CType.DWORD "JETI_SetFunctionConf" [val CType.DWORD_PTR "dwDevice", val CType.BYTE "bFunction"],
  Proto.mk CType.DWORD "JETI_GetFormatConf" [val CType.DWORD_PTR "dwDevice", ptr CType.BYTE "bPrevForm", ptr CType.BYTE "bConfForm"],
  Proto.mk CType.DWORD "JETI_SetFormatConf" [val CType.DWORD_PTR "dwDevice", val CType.BYTE "bFormat"],
  Proto.mk CType.DWORD "JETI_GetTintConf" [val CType.DWORD_PTR "dwDevice", ptr CType.float "fPrevTint", ptr CType.float "fConfTint"],
  Proto.mk CType.DWORD "JETI_SetTintConf" [val CType.DWORD_PTR "dwDevice", val CType.float "fTint"],
  Proto.mk CType.DWORD "JETI_GetMaxTintConf" [val CType.DWORD_PTR "dwDevice", ptr CType.float "fMaxTint"],
  Proto.mk CType.DWORD "JETI_SetMaxTintConf" [val CType.DWORD_PTR "dwDevice", val CType.float "fMaxTint"],
  Proto.mk CType.DWORD "JETI_GetMaxAverConf" [val CType.DWORD_PTR "dwDevice", ptr CType.WORD "wMaxAver"],
  Proto.mk CType.DWORD "JETI_SetMaxAverConf" [val CType.DWORD_PTR "dwDevice", val CType.WORD "wMaxAver"],
  Proto.mk CType.DWORD "JETI_GetMinTintConf" [val CType.DWORD_PTR "dwDevice", ptr CType.float "fMinTint"],
  Proto.mk CType.DWORD "JETI_GetImageMinTintConf" [val CType.DWORD_PTR "dwDevice", ptr CType.float "fMinTint"],
  Proto.mk CType.DWORD "JETI_GetChanMinTintConf" [val CType.DWORD_PTR "dwDevice", ptr CType.float "fMinTint"],
  Proto.mk CType.DWORD "JETI_GetContMinTintConf" [val CType.DWORD_PTR "dwDevice", ptr CType.float "fMinTint"],
  Proto.mk CType.DWORD "JETI_GetContChanMinTintConf" [val CType.DWORD_PTR "dwDevice", ptr CType.float "fMinTint"],
  Proto.mk CType.DWORD "JETI_GetAverConf" [val CType.DWORD_PTR "dwDevice", ptr CType.WORD "wPrevAver", ptr CType.WORD "wConfAver"],
  Proto.mk CType.DWORD "JETI_SetAverConf" [val CType.DWORD_PTR "dwDevice", val CType.WORD "wAver"],
  Proto.mk CType.DWORD "JETI_GetAdaptConf" [val CType.DWORD_PTR "dwDevice", ptr CType.BYTE "bAdaptmode"],
  Proto.mk CType.DWORD "JETI_SetAdaptConf" [val CType.DWORD_PTR "dwDevice", val CType.BYTE "bAdaptmode"],
  Proto.mk CType.DWORD "JETI_GetWranConf" [val CType.DWORD_PTR "dwDevice", ptr CType.DWORD "dwBeg", ptr CType.DWORD "dwEnd", ptr CType.DWORD "dwStep"],
  Proto.mk CType.DWORD "JETI_SetWranConf" [val CType.DWORD_PTR "dwDevice", val CType.DWORD "dwBeg", val CType.DWORD "dwEnd", val CType.DWORD "dwStep"],
  Proto.mk CType.DWORD "JETI_GetPDARowConf" [val CType.DWORD_PTR "dwDevice", ptr CType.DWORD "dwPDARow", ptr CType.DWORD "dwRowNumber"],
  Proto.mk CType.DWORD "JETI_SetPDARowConf" [val CType.DWORD_PTR "dwDevice", val CType.DWORD "dwPDARow", val CType.DWORD "dwRowNumber"],
  Proto.mk CType.DWORD "JETI_SetDefault" [val CType.DWORD_PTR "dwDevice"],
  Proto.mk CType.DWORD "JETI_GetLevel" [val CType.DWORD_PTR "dwDevice", ptr CType.DWORD "dwLevelCounts", ptr CType.DWORD "dwLevelPercent"],
  Proto.mk CType.DWORD "JETI_FetchDark" [val CType.DWORD_PTR "dwDevice", ptr CType.INT32 "iDark"],
  Proto.mk CType.DWORD "JETI_FetchLight" [val CType.DWORD_PTR "dwDevice", ptr CType.INT32 "iLight"],
  Proto.mk CType.DWORD "JETI_FetchRefer" [val CType.DWORD_PTR "dwDevice", ptr CType.INT32 "iRefer"],
  Proto.mk CType.DWORD "JETI_FetchTransRefl" [val CType.DWORD_PTR "dwDevice", ptr CType.INT32 "iTransRefl"],
  Proto.mk CType.DWORD "JETI_FetchSprad" [val CType.DWORD_PTR "dwDevice", ptr CType.FLOAT "fSprad"],
  Proto.mk CType.DWORD "JETI_FetchSpradHiRes" [val CType.DWORD_PTR "dwDevice", ptr CType.FLOAT "fSprad"],
  Proto.mk CType.DWORD "JETI_FetchRadio" [val CType.DWORD_PTR "dwDevice", ptr CType.FLOAT "fRadio"],
  Proto.mk CType.DWORD "JETI_FetchPhoto" [val CType.DWORD_PTR "dwDevice", ptr CType.FLOAT "fPhoto"],
  Proto.mk CType.DWORD "JETI_FetchChromxy" [val CType.DWORD_PTR "dwDevice", ptr CType.FLOAT "fChromx", ptr CType.FLOAT "Chromy"],
  Proto.mk CType.DWORD "JETI_FetchChromuv" [val CType.DWORD_PTR "dwDevice", ptr CType.FLOAT "fChromu", ptr CType.FLOAT "fChromv"],
  Proto.mk CType.DWORD "JETI_FetchDWLPE" [val CType.DWORD_PTR "dwDevice", ptr CType.FLOAT "fDWL", ptr CType.FLOAT "fPE"],
  Proto.mk CType.DWORD "JETI_FetchCCT" [val CType.DWORD_PTR "dwDevice", ptr CType.FLOAT "fCCT"],
  Proto.mk CType.DWORD "JETI_FetchDuv" [val CType.DWORD_PTR "dwDevice", ptr CType.FLOAT "fDuv"],
  Proto.mk CType.DWORD "JETI_FetchCRI" [val CType.DWORD_PTR "dwDevice", ptr CType.FLOAT "fCRI"],
  Proto.mk CType.DWORD "JETI_FetchXYZ" [val CType.DWORD_PTR "dwDevice", ptr CType.FLOAT "fX", ptr CType.FLOAT "fY", ptr CType.FLOAT "fZ"],
  Proto.mk CType.DWORD "JETI_FetchTiAdapt" [val CType.DWORD_PTR "dwDevice", ptr CType.FLOAT "fTiAdapt"],
  Proto.mk CType.DWORD "JETI_FetchAverAdapt" [val CType.DWORD_PTR "dwDevice", ptr CType.WORD "wAverAdapt"],
  Proto.mk CType.DWORD "JETI_CalcLintDark" [val CType.DWORD_PTR "dwDevice", val CType.DWORD "dwBeg", val CType.DWORD "dwEnd", val CType.FLOAT "fStep", ptr CType.FLOAT "fDark"],
  Proto.mk CType.DWORD "JETI_CalcSplinDark" [val CType.DWORD_PTR "dwDevice", val CType.DWORD "dwBeg", val CType.DWORD "dwEnd", val CType.FLOAT "fStep", ptr CType.FLOAT "fDark"],
  Proto.mk CType.DWORD "JETI_CalcLintLight" [val CType.DWORD_PTR "dwDevice", val CType.DWORD "dwBeg", val CType.DWORD "dwEnd", val CType.FLOAT "fStep", ptr CType.FLOAT "fLight"],
  Proto.mk CType.DWORD "JETI_CalcSplinLight" [val CType.DWORD_PTR "dwDevice", val CType.DWORD "dwBeg", val CType.DWORD "dwEnd", val CType.FLOAT "fStep", ptr CType.FLOAT "fLight"],
  Proto.mk CType.DWORD "JETI_CalcLintRefer" [val CType.DWORD_PTR "dwDevice", val CType.DWORD "dwBeg", val CType.DWORD "dwEnd", val CType.FLOAT "fStep", ptr CType.FLOAT "fRefer"],
  Proto.mk CType.DWORD "JETI_CalcSplinRefer" [val CType.DWORD_PTR "dwDevice", val CType.DWORD "dwBeg", val CType.DWORD "dwEnd", val CType.FLOAT "fStep", ptr CType.FLOAT "fRefer"],
  Proto.mk CType.DWORD "JETI_CalcLintTransRefl" [val CType.DWORD_PTR "dwDevice", val CType.DWORD "dwBeg", val CType.DWORD "dwEnd", val CType.FLOAT "fStep", ptr CType.FLOAT "fTransRefl"],
  Proto.mk CType.DWORD "JETI_CalcSplinTransRefl" [val CType.DWORD_PTR "dwDevice", val CType.DWORD "dwBeg", val CType.DWORD "dwEnd", val CType.FLOAT "fStep", ptr CType.FLOAT "fTransRefl"],
  Proto.mk CType.DWORD "JETI_CalcRadio" [val CType.DWORD_PTR "dwDevice", val CType.DWORD "dwBeg", val CType.DWORD "dwEnd", ptr CType.FLOAT "fRadio"],
  Proto.mk CType.DWORD "JETI_CalcPhoto" [val CType.DWORD_PTR "dwDevice", ptr CType.FLOAT "fPhoto"],
  Proto.mk CType.DWORD "JETI_CalcChromxy" [val CType.DWORD_PTR "dwDevice", ptr CType.FLOAT "fChromx", ptr CType.FLOAT "fChromy"],
  Proto.mk CType.DWORD "JETI_CalcChromxy10" [val CType.DWORD_PTR "dwDevice", ptr CType.FLOAT "fChromx", ptr CType.FLOAT "fChromy"],
  Proto.mk CType.DWORD "JETI_CalcChromuv" [val CType.DWORD_PTR "dwDevice", ptr CType.FLOAT "fChromu", ptr CType.FLOAT "fChromv"],
  Proto.mk CType.DWORD "JETI_CalcDWLPE" [val CType.DWORD_PTR "dwDevice", ptr CType.FLOAT "fDWL", ptr CType.FLOAT "fPE"],
  Proto.mk CType.DWORD "JETI_CalcCCT" [val CType.DWORD_PTR "dwDevice", ptr CType.FLOAT "fCCT"],
  Proto.mk CType.DWORD "JETI_CalcDuv" [val CType.DWORD_PTR "dwDevice", ptr CType.FLOAT "fDuv"],
  Proto.mk CType.DWORD "JETI_CalcCRI" [val CType.DWORD_PTR "dwDevice", val CType.FLOAT "fCCT", ptr CType.FLOAT "fCRI"],
  Proto.mk CType.DWORD "JETI_CalcXYZ" [val CType.DWORD_PTR "dwDevice", ptr CType.FLOAT "fX", ptr CType.FLOAT "fY", ptr CType.FLOAT "fZ"],
  Proto.mk CType.DWORD "JETI_CalcAllValue" [val CType.DWORD_PTR "dwDevice", val CType.DWORD "dwBeg", val CType.DWORD "dwEnd", ptr CType.FLOAT "fRadio", ptr CType.FLOAT "fPhoto", ptr CType.FLOAT "fChromx", ptr CType.FLOAT "fChromy", ptr CType.FLOAT "fChromu", ptr CType.FLOAT "fChromv", ptr CType.FLOAT "fDWL", ptr CType.FLOAT "fPE"],
  Proto.mk CType.DWORD "JETI_CalcTM30" [val CType.DWORD_PTR "dwDevice", val CType.BYTE "bUseTM3015", ptr CType.double "dRf", ptr CType.double "dRg", ptr CType.double "dChroma", ptr CType.double "dHue", ptr CType.double "dRfi", ptr CType.double "dRfces"],
  Proto.mk CType.DWORD "JETI_CalcPeakFWHM" [val CType.DWORD_PTR "dwDevice", val CType.FLOAT "fThreshold", ptr CType.FLOAT "fPeak", ptr CType.FLOAT "fFWHM"],
  Proto.mk CType.DWORD "JETI_CalcBlueMeasurement" [val CType.DWORD_PTR "dwDevice", ptr CType.FLOAT "fLb", ptr CType.FLOAT "fKbv", ptr CType.FLOAT "fKc", ptr CType.FLOAT "fRbpfs", ptr CType.FLOAT "fRlbtb", ptr CType.FLOAT "fRnbpbp"]
]

/-- The function prototypes of jeti_radio.h, in source order (lines 20-44). -/
def jeti_radio_h_prototypes : List Proto := [
  Proto.mk CType.DWORD "JETI_GetNumRadio" [ptr CType.DWORD "dwNumDevices"],
  Proto.mk CType.DWORD "JETI_GetSerialRadio" [val CType.DWORD "dwDeviceNum", ptr CType.char "cBoardSerialNr", ptr CType.char "cSpecSerialNr", ptr CType.char "cDeviceSerialNr"],
  Proto.mk CType.DWORD "JETI_OpenRadio" [val CType.DWORD "dwDeviceNum", ptr CType.DWORD_PTR "dwDevice"],
  Proto.mk CType.DWORD "JETI_CloseRadio" [val CType.DWORD_PTR "dwDevice"],
  Proto.mk CType.DWORD "JETI_Measure" [val CType.DWORD_PTR "dwDevice"],
  Proto.mk CType.DWORD "JETI_MeasureAdapt" [val CType.DWORD_PTR "dwDevice"],
  Proto.mk CType.DWORD "JETI_PrepareMeasure" [val CType.DWORD_PTR "dwDevice"],
  Proto.mk CType.DWORD "JETI_MeasureStatus" [val CType.DWORD_PTR "dwDevice", ptr CType.BOOL "boStatus"],
  Proto.mk CType.DWORD "JETI_MeasureAdaptStatus" [val CType.DWORD_PTR "dwDevice", ptr CType.FLOAT "fTint", ptr CType.WORD "wAverage", ptr CType.BOOL "boStatus"],
  Proto.mk CType.DWORD "JETI_MeasureBreak" [val CType.DWORD_PTR "dwDevice"],
  Proto.mk CType.DWORD "JETI_SpecRad" [val CType.DWORD_PTR "dwDevice", ptr CType.FLOAT "fSprad"],
  Proto.mk CType.DWORD "JETI_Radio" [val CType.DWORD_PTR "dwDevice", ptr CType.FLOAT "fRadio"],
  Proto.mk CType.DWORD "JETI_Photo" [val CType.DWORD_PTR "dwDevice", ptr CType.FLOAT "fPhoto"],
  Proto.mk CType.DWORD "JETI_Chromxy" [val CType.DWORD_PTR "dwDevice", ptr CType.FLOAT "fChromx", ptr CType.FLOAT "fChromy"],
  Proto.mk CType.DWORD "JETI_Chromxy10" [val CType.DWORD_PTR "dwDevice", ptr CType.FLOAT "fChromx10", ptr CType.FLOAT "fChromy10"],
  Proto.mk CType.DWORD "JETI_Chromuv" [val CType.DWORD_PTR "dwDevice", ptr CType.FLOAT "fChromu", ptr CType.FLOAT "fChromv"],
  Proto.mk CType.DWORD "JETI_ChromXYZ" [val CType.DWORD_PTR "dwDevice", ptr CType.FLOAT "fX", ptr CType.FLOAT "fY", ptr CType.FLOAT "fZ"],
  Proto.mk CType.DWORD "JETI_DWLPE" [val CType.DWORD_PTR "dwDevice", ptr CType.FLOAT "fDWL", ptr CType.FLOAT "fPE"],
  Proto.mk CType.DWORD "JETI_CCT" [val CType.DWORD_PTR "dwDevice", ptr CType.FLOAT "fCCT"],
  Proto.mk CType.DWORD "JETI_Duv" [val CType.DWORD_PTR "dwDevice", ptr CType.FLOAT "fDuv"],
  Proto.mk CType.DWORD "JETI_CRI" [val CType.DWORD_PTR "dwDevice", ptr CType.FLOAT "fCRI"],
  Proto.mk CType.DWORD "JETI_RadioTint" [val CType.DWORD_PTR "dwDevice", ptr CType.FLOAT "fTint"],
  Proto.mk CType.DWORD "JETI_SetMeasDist" [val CType.DWORD_PTR "dwDevice", val CType.DWORD "dwDistance"],
  Proto.mk CType.DWORD "JETI_GetMeasDist" [val CType.DWORD_PTR "dwDevice", ptr CType.DWORD "dwDistance"],
  Proto.mk CType.DWORD "JETI_GetRadioDLLVersion" [ptr CType.WORD "wMajorVersion", ptr CType.WORD "wMinorVersion", ptr CType.WORD "wBuildNumber"]
]

/-- The function prototypes of jeti_radio_ex.h, in source order (lines 20-50). -/
def jeti_radio_ex_h_prototypes : List Proto := [
  Proto.mk CType.DWORD "JETI_GetNumRadioEx" [ptr CType.DWORD "dwNumDevices"],
  Proto.mk CType.DWORD "JETI_GetSerialRadioEx" [val CType.DWORD "dwDeviceNum", ptr CType.char "cBoardSerialNr", ptr CType.char "cSpecSerialNr", ptr CType.char "cDeviceSerialNr"],
  Proto.mk CType.DWORD "JETI_OpenRadioEx" [val CType.DWORD "dwDeviceNum", ptr CType.DWORD_PTR "dwDevice"],
  Proto.mk CType.DWORD "JETI_CloseRadioEx" [val CType.DWORD_PTR "dwDevice"],
  Proto.mk CType.DWORD "JETI_MeasureEx" [val CType.DWORD_PTR "dwDevice", val CType.FLOAT "fTint", val CType.WORD "wAver", val CType.DWORD "dwStep"],
  Proto.mk CType.DWORD "JETI_MeasureAdaptEx" [val CType.DWORD_PTR "dwDevice", val CType.WORD "wAver", val CType.DWORD "dwStep"],
  Proto.mk CType.DWORD "JETI_PrepareMeasureEx" [val CType.DWORD_PTR "dwDevice", val CType.FLOAT "fTint", val CType.WORD "wAver", val CType.DWORD "dwStep"],
  Proto.mk CType.DWORD "JETI_MeasureStatusEx" [val CType.DWORD_PTR "dwDevice", ptr CType.BOOL "boStatus"],
  Proto.mk CType.DWORD "JETI_MeasureAdaptStatusEx" [val CType.DWORD_PTR "dwDevice", ptr CType.FLOAT "fTint", ptr CType.WORD "wAverage", ptr CType.BOOL "boStatus"],
  Proto.mk CType.DWORD "JETI_MeasureBreakEx" [val CType.DWORD_PTR "dwDevice"],
  Proto.mk CType.DWORD "JETI_SpecRadEx" [val CType.DWORD_PTR "dwDevice", val CType.DWORD "dwBeg", val CType.DWORD "dwEnd", ptr CType.FLOAT "fSprad"],
  Proto.mk CType.DWORD "JETI_SpecRadHiResEx" [val CType.DWORD_PTR "dwDevice", val CType.DWORD "dwBeg", val CType.DWORD "dwEnd", ptr CType.FLOAT "fSprad"],
  Proto.mk CType.DWORD "JETI_SaveSpecRadSPCEx" [val CType.DWORD_PTR "dwDevice", val CType.DWORD "dwBeg", val CType.DWORD "dwEnd", ptr CType.char "cPathName", ptr CType.char "cOperator", ptr CType.char "cMemo"],
  Proto.mk CType.DWORD "JETI_SaveSpecRadCSVEx" [val CType.DWORD_PTR "dwDevice", val CType.DWORD "dwBeg", val CType.DWORD "dwEnd", ptr CType.char "cPathName", ptr CType.char "cOperator", ptr CType.char "cMemo"],
  Proto.mk CType.DWORD "JETI_RadioEx" [val CType.DWORD_PTR "dwDevice", val CType.DWORD "dwBeg", val CType.DWORD "dwEnd", ptr CType.FLOAT "fRadio"],
  Proto.mk CType.DWORD "JETI_PhotoEx" [val CType.DWORD_PTR "dwDevice", ptr CType.FLOAT "fPhoto"],
  Proto.mk CType.DWORD "JETI_ChromxyEx" [val CType.DWORD_PTR "dwDevice", ptr CType.FLOAT "fChromx", ptr CType.FLOAT "fChromy"],
  Proto.mk CType.DWORD "JETI_Chromxy10Ex" [val CType.DWORD_PTR "dwDevice", ptr CType.FLOAT "fChromx10", ptr CType.FLOAT "fChromy10"],
  Proto.mk CType.DWORD "JETI_ChromuvEx" [val CType.DWORD_PTR "dwDevice", ptr CType.FLOAT "fChromu", ptr CType.FLOAT "fChromv"],
  Proto.mk CType.DWORD "JETI_ChromXYZEx" [val CType.DWORD_PTR "dwDevice", ptr CType.FLOAT "fX", ptr CType.FLOAT "fY", ptr CType.FLOAT "fZ"],
  Proto.mk CType.DWORD "JETI_DWLPEEx" [val CType.DWORD_PTR "dwDevice", ptr CType.FLOAT "fDWL", ptr CType.FLOAT "fPE"],
  Proto.mk CType.DWORD "JETI_CCTEx" [val CType.DWORD_PTR "dwDevice", ptr CType.FLOAT "fCCT"],
  Proto.mk CType.DWORD "JETI_DuvEx" [val CType.DWORD_PTR "dwDevice", ptr CType.FLOAT "fDuv"],
  Proto.mk CType.DWORD "JETI_CRIEx" [val CType.DWORD_PTR "dwDevice", val CType.FLOAT "fCCT", ptr CType.FLOAT "fCRI"],
  Proto.mk CType.DWORD "JETI_TM30Ex" [val CType.DWORD_PTR "dwDevice", val CType.BYTE "bUseTM3015", ptr CType.DOUBLE "dRf", ptr CType.DOUBLE "dRg", ptr CType.DOUBLE "dChroma", ptr CType.DOUBLE "dHue", ptr CType.DOUBLE "dRfi", ptr CType.DOUBLE "dRfces"],
  Proto.mk CType.DWORD "JETI_PeakFWHMEx" [val CType.DWORD_PTR "dwDevice", val CType.FLOAT "fThreshold", ptr CType.FLOAT "fPeak", ptr CType.FLOAT "fFWHM"],
  Proto.mk CType.DWORD "JETI_BlueMeasurementEx" [val CType.DWORD_PTR "dwDevice", ptr CType.FLOAT "fLb", ptr CType.FLOAT "fKbv", ptr CType.FLOAT "fKc", ptr CType.FLOAT "fRbpfs", ptr CType.FLOAT "fRlbtb", ptr CType.FLOAT "fRnbpbp"],
  Proto.mk CType.DWORD "JETI_RadioTintEx" [val CType.DWORD_PTR "dwDevice", ptr CType.FLOAT "fTint"],
  Proto.mk CType.DWORD "JETI_SetMeasDistEx" [val CType.DWORD_PTR "dwDevice", val CType.DWORD "dwDistance"],
  Proto.mk CType.DWORD "JETI_GetMeasDistEx" [val CType.DWORD_PTR "dwDevice", ptr CType.DWORD "dwDistance"],
  Proto.mk CType.DWORD "JETI_GetRadioExDLLVersion" [ptr CType.WORD "wMajorVersion", ptr CType.WORD "wMinorVersion", ptr CType.WORD "wBuildNumber"]
]

/-- The function prototypes of jeti_spectro_ex.h, in source order (lines 20-59). -/
def jeti_spectro_ex_h_prototypes : List Proto := [
  Proto.mk CType.DWORD "JETI_GetNumSpectroEx" [ptr CType.DWORD "dwNumDevices"],
  Proto.mk CType.DWORD "JETI_GetSerialSpectroEx" [val CType.DWORD "dwDeviceNum", ptr CType.char "cBoardSerialNr", ptr CType.char "cSpecSerialNr", ptr CType.char "cDeviceSerialNr"],
  Proto.mk CType.DWORD "JETI_OpenSpectroEx" [val CType.DWORD "dwDeviceNum", ptr CType.DWORD_PTR "dwDevice"],
  Proto.mk CType.DWORD "JETI_CloseSpectroEx" [val CType.DWORD_PTR "dwDevice"],
  Proto.mk CType.DWORD "JETI_StartDarkEx" [val CType.DWORD_PTR "dwDevice", val CType.FLOAT "fTint", val CType.WORD "wAver"],
  Proto.mk CType.DWORD "JETI_DarkPixEx" [val CType.DWORD_PTR "dwDevice", ptr CType.INT32 "iDark"],
  Proto.mk CType.DWORD "JETI_DarkWaveEx" [val CType.DWORD_PTR "dwDevice", val CType.DWORD "dwBeg", val CType.DWORD "dwEnd", val CType.FLOAT "fStep", ptr CType.FLOAT "fDark"],
  Proto.mk CType.DWORD "JETI_StartLightEx" [val CType.DWORD_PTR "dwDevice", val CType.FLOAT "fTint", val CType.WORD "wAver"],
  Proto.mk CType.DWORD "JETI_PrepareLightEx" [val CType.DWORD_PTR "dwDevice", val CType.FLOAT "fTint", val CType.WORD "wAver"],
  Proto.mk CType.DWORD "JETI_LightPixEx" [val CType.DWORD_PTR "dwDevice", ptr CType.INT32 "iLight"],
  Proto.mk CType.DWORD "JETI_LightWaveEx" [val CType.DWORD_PTR "dwDevice", val CType.DWORD "dwBeg", val CType.DWORD "dwEnd", val CType.FLOAT "fStep", ptr CType.FLOAT "fLight"],
  Proto.mk CType.DWORD "JETI_StartReferEx" [val CType.DWORD_PTR "dwDevice", val CType.FLOAT "fTint", val CType.WORD "wAver"],
  Proto.mk CType.DWORD "JETI_PrepareReferEx" [val CType.DWORD_PTR "dwDevice", val CType.FLOAT "fTint", val CType.WORD "wAver"],
  Proto.mk CType.DWORD "JETI_ReferPixEx" [val CType.DWORD_PTR "dwDevice", ptr CType.INT32 "iRefer"],
  Proto.mk CType.DWORD "JETI_ReferWaveEx" [val CType.DWORD_PTR "dwDevice", val CType.DWORD "dwBeg", val CType.DWORD "dwEnd", val CType.FLOAT "fStep", ptr CType.FLOAT "fRefer"],
  Proto.mk CType.DWORD "JETI_StartTransReflEx" [val CType.DWORD_PTR "dwDevice", val CType.FLOAT "fTint", val CType.WORD "wAver"],
  Proto.mk CType.DWORD "JETI_PrepareTransReflEx" [val CType.DWORD_PTR "dwDevice", val CType.FLOAT "fTint", val CType.WORD "wAver"],
  Proto.mk CType.DWORD "JETI_TransReflPixEx" [val CType.DWORD_PTR "dwDevice", ptr CType.INT32 "iTransRefl"],
  Proto.mk CType.DWORD "JETI_TransReflWaveEx" [val CType.DWORD_PTR "dwDevice", val CType.DWORD "dwBeg", val CType.DWORD "dwEnd", val CType.FLOAT "fStep", ptr CType.FLOAT "fTransRefl"],
  Proto.mk CType.DWORD "JETI_StartDarkImageEx" [val CType.DWORD_PTR "dwDevice", val CType.FLOAT "fTint"],
  Proto.mk CType.DWORD "JETI_DarkImageEx" [val CType.DWORD_PTR "dwDevice", ptr CType.WORD "wDarkImage"],
  Proto.mk CType.DWORD "JETI_StartLightImageEx" [val CType.DWORD_PTR "dwDevice", val CType.FLOAT "fTint"],
  Proto.mk CType.DWORD "JETI_LightImageEx" [val CType.DWORD_PTR "dwDevice", ptr CType.WORD "wLightImage"],
  Proto.mk CType.DWORD "JETI_StartChannelDarkEx" [val CType.DWORD_PTR "dwDevice", val CType.FLOAT "fTint", val CType.WORD "wAver"],
  Proto.mk CType.DWORD "JETI_ChannelDarkEx" [val CType.DWORD_PTR "dwDevice", ptr CType.WORD "wDark"],
  Proto.mk CType.DWORD "JETI_StartChannelLightEx" [val CType.DWORD_PTR "dwDevice", val CType.FLOAT "fTint", val CType.WORD "wAver"],
  Proto.mk CType.DWORD "JETI_ChannelLightEx" [val CType.DWORD_PTR "dwDevice", ptr CType.WORD "wLight"],
  Proto.mk CType.DWORD "JETI_StartContDarkEx" [val CType.DWORD_PTR "dwDevice", val CType.FLOAT "fInterval", val CType.DWORD "dwCount"],
  Proto.mk CType.DWORD "JETI_ContDarkEx" [val CType.DWORD_PTR "dwDevice", ptr CType.WORD "wDark"],
  Proto.mk CType.DWORD "JETI_StartContLightEx" [val CType.DWORD_PTR "dwDevice", val CType.FLOAT "fInterval", val CType.DWORD "dwCount"],
  Proto.mk CType.DWORD "JETI_ContLightEx" [val CType.DWORD_PTR "dwDevice", ptr CType.WORD "wLight"],
  Proto.mk CType.DWORD "JETI_StartContChannelDarkEx" [val CType.DWORD_PTR "dwDevice", val CType.FLOAT "fInterval", val CType.DWORD "dwCount"],
  Proto.mk CType.DWORD "JETI_ContChannelDarkEx" [val CType.DWORD_PTR "dwDevice", ptr CType.WORD "wDark"],
  Proto.mk CType.DWORD "JETI_StartContChannelLightEx" [val CType.DWORD_PTR "dwDevice", val CType.FLOAT "fInterval", val CType.DWORD "dwCount"],
  Proto.mk CType.DWORD "JETI_ContChannelLightEx" [val CType.DWORD_PTR "dwDevice", ptr CType.WORD "wLight"],
  Proto.mk CType.DWORD "JETI_SpectroStatusEx" [val CType.DWORD_PTR "dwDevice", ptr CType.BOOL "boIsBusy"],
  Proto.mk CType.DWORD "JETI_SpectroBreakEx" [val CType.DWORD_PTR "dwDevice"],
  Proto.mk CType.DWORD "JETI_PixelCountEx" [val CType.DWORD_PTR "dwDevice", ptr CType.DWORD "dwPixel"],
  Proto.mk CType.DWORD "JETI_SpectroTintEx" [val CType.DWORD_PTR "dwDevice", ptr CType.FLOAT "fTint"],
  Proto.mk CType.DWORD "JETI_GetSpectroExDLLVersion" [ptr CType.WORD "wMajorVersion", ptr CType.WORD "wMinorVersion", ptr CType.WORD "wBuildNumber"]
]

/-! ### DLL error codes (jeti_core.h, lines 235-268) -/

/-- no error occured -/
def JETI_SUCCESS : Nat := 0x00000000
/-- device already open -/
def JETI_ERROR_OPEN : Nat := 0x00000001
/-- could not open COM-port -/
def JETI_ERROR_OPEN_PORT : Nat := 0x00000002
/-- could not set COM-port settings -/
def JETI_ERROR_PORT_SETTING : Nat := 0x00000003
/-- could not set buffer size of COM-port -/
def JETI_ERROR_BUFFER_SIZE : Nat := 0x00000004
/-- could not purge buffers of COM-port -/
def JETI_ERROR_PURGE : Nat := 0x00000005
/-- could not set COM-port timeout -/
def JETI_ERROR_TIMEOUT_SETTING : Nat := 0x00000006
/-- could not send to device -/
def JETI_ERROR_SEND : Nat := 0x00000007
/-- timeout error -/
def JETI_TIMEOUT : Nat := 0x00000008
/-- break -/
def JETI_BREAK : Nat := 0x00000009
/-- could not receive from device -/
def JETI_ERROR_RECEIVE : Nat := 0x0000000A
/-- command not supported or invalid argument -/
def JETI_ERROR_NAK : Nat := 0x0000000B
/-- could not convert received data -/
def JETI_ERROR_CONVERT : Nat := 0x0000000C
/-- invalid argument -/
def JETI_ERROR_PARAMETER : Nat := 0x0000000D
/-- device busy -/
def JETI_BUSY : Nat := 0x0000000E
/-- invalid checksum of received data -/
def JETI_CHECKSUM_ERROR : Nat := 0x00000011
/-- invalid stepwidth -/
def JETI_INVALID_STEPWIDTH : Nat := 0x00000012
/-- invalid device number -/
def JETI_INVALID_NUMBER : Nat := 0x00000013
/-- device not connected -/
def JETI_NOT_CONNECTED : Nat := 0x00000014
/-- invalid device handle -/
def JETI_INVALID_HANDLE : Nat := 0x00000015
/-- invalid calibration file number -/
def JETI_INVALID_CALIB : Nat := 0x00000016
/-- calibration data not read -/
def JETI_CALIB_NOT_READ : Nat := 0x00000017
/-- overexposure -/
def JETI_OVEREXPOSURE : Nat := 0x00000020
/-- measurement failed -/
def JETI_MEASURE_FAIL : Nat := 0x00000022
/-- adaption failed -/
def JETI_ADAPTION_FAIL : Nat := 0x00000023
/-- straylight file not found -/
def JETI_FILE_NOT_FOUND : Nat := 0x00000050
/-- could not find or create straylight directory -/
def JETI_NO_SLM_DIR : Nat := 0x00000051
/-- no straylight file -/
def JETI_NO_STRAYLIGHT : Nat := 0x00000052
/-- not enough memory for straylight matrix -/
def JETI_NO_MEM : Nat := 0x00000053
/-- could not read serial number -/
def JETI_NO_SN : Nat := 0x00000054
/-- internal DLL error -/
def JETI_DLL_ERROR : Nat := 0x00000080
/-- calculation error -/
def JETI_CALC_ERROR : Nat := 0x00000081
/-- could not read from COM port -/
def JETI_ERROR_READ : Nat := 0x00000100
/-- fatal communication error -/
def JETI_FATAL_ERROR : Nat := 0x000000FF

/-- The error codes of jeti_core.h as (name, value) pairs, in source order (lines 235-268). -/
def jeti_core_h_codes : List (String × Nat) := [
  ("JETI_SUCCESS", JETI_SUCCESS),
  ("JETI_ERROR_OPEN", JETI_ERROR_OPEN),
  ("JETI_ERROR_OPEN_PORT", JETI_ERROR_OPEN_PORT),
  ("JETI_ERROR_PORT_SETTING", JETI_ERROR_PORT_SETTING),
  ("JETI_ERROR_BUFFER_SIZE", JETI_ERROR_BUFFER_SIZE),
  ("JETI_ERROR_PURGE", JETI_ERROR_PURGE),
  ("JETI_ERROR_TIMEOUT_SETTING", JETI_ERROR_TIMEOUT_SETTING),
  ("JETI_ERROR_SEND", JETI_ERROR_SEND),
  ("JETI_TIMEOUT", JETI_TIMEOUT),
  ("JETI_BREAK", JETI_BREAK),
  ("JETI_ERROR_RECEIVE", JETI_ERROR_RECEIVE),
  ("JETI_ERROR_NAK", JETI_ERROR_NAK),
  ("JETI_ERROR_CONVERT", JETI_ERROR_CONVERT),
  ("JETI_ERROR_PARAMETER", JETI_ERROR_PARAMETER),
  ("JETI_BUSY", JETI_BUSY),
  ("JETI_CHECKSUM_ERROR", JETI_CHECKSUM_ERROR),
  ("JETI_INVALID_STEPWIDTH", JETI_INVALID_STEPWIDTH),
  ("JETI_INVALID_NUMBER", JETI_INVALID_NUMBER),
  ("JETI_NOT_CONNECTED", JETI_NOT_CONNECTED),
  ("JETI_INVALID_HANDLE", JETI_INVALID_HANDLE),
  ("JETI_INVALID_CALIB", JETI_INVALID_CALIB),
  ("JETI_CALIB_NOT_READ", JETI_CALIB_NOT_READ),
  ("JETI_OVEREXPOSURE", JETI_OVEREXPOSURE),
  ("JETI_MEASURE_FAIL", JETI_MEASURE_FAIL),
  ("JETI_ADAPTION_FAIL", JETI_ADAPTION_FAIL),
  ("JETI_FILE_NOT_FOUND", JETI_FILE_NOT_FOUND),
  ("JETI_NO_SLM_DIR", JETI_NO_SLM_DIR),
  ("JETI_NO_STRAYLIGHT", JETI_NO_STRAYLIGHT),
  ("JETI_NO_MEM", JETI_NO_MEM),
  ("JETI_NO_SN", JETI_NO_SN),
  ("JETI_DLL_ERROR", JETI_DLL_ERROR),
  ("JETI_CALC_ERROR", JETI_CALC_ERROR),
  ("JETI_ERROR_READ", JETI_ERROR_READ),
  ("JETI_FATAL_ERROR", JETI_FATAL_ERROR)
]

/-- The error codes of jeti_radio.h as (name, value) pairs, in source order (lines 55-86). -/
def jeti_radio_h_codes : List (String × Nat) := [
  ("JETI_SUCCESS", 0x00000000),
  ("JETI_ERROR_OPEN", 0x00000001),
  ("JETI_ERROR_OPEN_PORT", 0x00000002),
  ("JETI_ERROR_PORT_SETTING", 0x00000003),
  ("JETI_ERROR_BUFFER_SIZE", 0x00000004),
  ("JETI_ERROR_PURGE", 0x00000005),
  ("JETI_ERROR_TIMEOUT_SETTING", 0x00000006),
  ("JETI_ERROR_SEND", 0x00000007),
  ("JETI_TIMEOUT", 0x00000008),
  ("JETI_BREAK", 0x00000009),
  ("JETI_ERROR_RECEIVE", 0x0000000A),
  ("JETI_ERROR_NAK", 0x0000000B),
  ("JETI_ERROR_CONVERT", 0x0000000C),
  ("JETI_ERROR_PARAMETER", 0x0000000D),
  ("JETI_BUSY", 0x0000000E),
  ("JETI_CHECKSUM_ERROR", 0x00000011),
  ("JETI_INVALID_STEPWIDTH", 0x00000012),
  ("JETI_INVALID_NUMBER", 0x00000013),
  ("JETI_NOT_CONNECTED", 0x00000014),
  ("JETI_INVALID_HANDLE", 0x00000015),
  ("JETI_INVALID_CALIB", 0x00000016),
  ("JETI_CALIB_NOT_READ", 0x00000017),
  ("JETI_OVEREXPOSURE", 0x00000020),
  ("JETI_MEASURE_FAIL", 0x00000022),
  ("JETI_ADAPTION_FAIL", 0x00000023),
  ("JETI_FILE_NOT_FOUND", 0x00000050),
  ("JETI_NO_SLM_DIR", 0x00000051),
  ("JETI_NO_STRAYLIGHT", 0x00000052),
  ("JETI_NO_MEM", 0x00000053),
  ("JETI_NO_SN", 0x00000054),
  ("JETI_DLL_ERROR", 0x00000080),
  ("JETI_FATAL_ERROR", 0x000000FF)
]

/-- The error codes of jeti_radio_ex.h as (name, value) pairs, in source order (lines 61-92). -/
def jeti_radio_ex_h_codes : List (String × Nat) := [
  ("JETI_SUCCESS", 0x00000000),
  ("JETI_ERROR_OPEN", 0x00000001),
  ("JETI_ERROR_OPEN_PORT", 0x00000002),
  ("JETI_ERROR_PORT_SETTING", 0x00000003),
  ("JETI_ERROR_BUFFER_SIZE", 0x00000004),
  ("JETI_ERROR_PURGE", 0x00000005),
  ("JETI_ERROR_TIMEOUT_SETTING", 0x00000006),
  ("JETI_ERROR_SEND", 0x00000007),
  ("JETI_TIMEOUT", 0x00000008),
  ("JETI_BREAK", 0x00000009),
  ("JETI_ERROR_RECEIVE", 0x0000000A),
  ("JETI_ERROR_NAK", 0x0000000B),
  ("JETI_ERROR_CONVERT", 0x0000000C),
  ("JETI_ERROR_PARAMETER", 0x0000000D),
  ("JETI_BUSY", 0x0000000E),
  ("JETI_CHECKSUM_ERROR", 0x00000011),
  ("JETI_INVALID_STEPWIDTH", 0x00000012),
  ("JETI_INVALID_NUMBER", 0x00000013),
  ("JETI_NOT_CONNECTED", 0x00000014),
  ("JETI_INVALID_HANDLE", 0x00000015),
  ("JETI_INVALID_CALIB", 0x00000016),
  ("JETI_CALIB_NOT_READ", 0x00000017),
  ("JETI_OVEREXPOSURE", 0x00000020),
  ("JETI_MEASURE_FAIL", 0x00000022),
  ("JETI_ADAPTION_FAIL", 0x00000023),
  ("JETI_FILE_NOT_FOUND", 0x00000050),
  ("JETI_NO_SLM_DIR", 0x00000051),
  ("JETI_NO_STRAYLIGHT", 0x00000052),
  ("JETI_NO_MEM", 0x00000053),
  ("JETI_NO_SN", 0x00000054),
  ("JETI_DLL_ERROR", 0x00000080),
  ("JETI_FATAL_ERROR", 0x000000FF)
]

/-- The error codes of jeti_spectro_ex.h as (name, value) pairs, in source order (lines 71-102). -/
def jeti_spectro_ex_h_codes : List (String × Nat) := [
  ("JETI_SUCCESS", 0x00000000),
  ("JETI_ERROR_OPEN", 0x00000001),
  ("JETI_ERROR_OPEN_PORT", 0x00000002),
  ("JETI_ERROR_PORT_SETTING", 0x00000003),
  ("JETI_ERROR_BUFFER_SIZE", 0x00000004),
  ("JETI_ERROR_PURGE", 0x00000005),
  ("JETI_ERROR_TIMEOUT_SETTING", 0x00000006),
  ("JETI_ERROR_SEND", 0x00000007),
  ("JETI_TIMEOUT", 0x00000008),
  ("JETI_BREAK", 0x00000009),
  ("JETI_ERROR_RECEIVE", 0x0000000A),
  ("JETI_ERROR_NAK", 0x0000000B),
  ("JETI_ERROR_CONVERT", 0x0000000C),
  ("JETI_ERROR_PARAMETER", 0x0000000D),
  ("JETI_BUSY", 0x0000000E),
  ("JETI_CHECKSUM_ERROR", 0x00000011),
  ("JETI_INVALID_STEPWIDTH", 0x00000012),
  ("JETI_INVALID_NUMBER", 0x00000013),
  ("JETI_NOT_CONNECTED", 0x00000014),
  ("JETI_INVALID_HANDLE", 0x00000015),
  ("JETI_INVALID_CALIB", 0x00000016),
  ("JETI_CALIB_NOT_READ", 0x00000017),
  ("JETI_OVEREXPOSURE", 0x00000020),
  ("JETI_MEASURE_FAIL", 0x00000022),
  ("JETI_ADAPTION_FAIL", 0x00000023),
  ("JETI_FILE_NOT_FOUND", 0x00000050),
  ("JETI_NO_SLM_DIR", 0x00000051),
  ("JETI_NO_STRAYLIGHT", 0x00000052),
  ("JETI_NO_MEM", 0x00000053),
  ("JETI_NO_SN", 0x00000054),
  ("JETI_DLL_ERROR", 0x00000080),
  ("JETI_FATAL_ERROR", 0x000000FF)
]

/-! ## Looking declarations up -/

/-- All prototypes of the four headers. -/
def allPrototypes : List Proto :=
  jeti_core_h_prototypes ++ jeti_radio_h_prototypes ++
    jeti_radio_ex_h_prototypes ++ jeti_spectro_ex_h_prototypes

/-- Whether the header `h` declares a function called `n`. -/
def declares (h : List Proto) (n : String) : Bool :=
  h.any fun p => p.name == n

/-- The first prototype of `h` called `n`, if there is one. -/
def lookup (h : List Proto) (n : String) : Option Proto :=
  h.find? fun p => p.name == n

/-- How many prototypes of `h` are called `n`. -/
def countDecl (h : List Proto) (n : String) : Nat :=
  (h.filter fun p => p.name == n).length

/-- The parameter types of a prototype, names dropped: base type and
pointer flag of each parameter, in order. -/
def Proto.paramTypes (p : Proto) : List (CType × Bool) :=
  p.params.map fun q => (q.ty, q.isPtr)

/-- Whether some parameter of `p` is declared as a pointer. -/
def Proto.hasPointerParam (p : Proto) : Bool :=
  p.params.any fun q => q.isPtr

/-- Whether the characters `pre` are the first characters of the second list. -/
def startsWith : List Char → List Char → Bool
  | [], _ => true
  | _ :: _, [] => false
  | a :: as, b :: bs => a == b && startsWith as bs

/-- Whether the characters `sub` occur contiguously in the second list. -/
def containsSub (sub : List Char) : List Char → Bool
  | [] => startsWith sub []
  | c :: cs => startsWith sub (c :: cs) || containsSub sub cs

/-- Whether the name of `p` begins with `s`. -/
def Proto.nameStartsWith (p : Proto) (s : String) : Bool :=
  startsWith s.data p.name.data

/-- Whether the name of `p` contains `s`. -/
def Proto.nameContains (p : Proto) (s : String) : Bool :=
  containsSub s.data p.name.data

/-- Whether `p` has a parameter whose name contains `Timeout`
(`dwTimeout`, `wTimeout`). -/
def Proto.hasTimeoutParam (p : Proto) : Bool :=
  p.params.any fun q => containsSub "Timeout".data q.name.data

/-- The names of the prototypes of `h` that satisfy `f`, in source order. -/
def namesWhere (h : List Proto) (f : Proto → Bool) : List String :=
  (h.filter f).map Proto.name

/-! ## Outcome codes -/

/-- The values of the outcome codes of jeti_core.h, in source order. -/
def coreCodeValues : List Nat := jeti_core_h_codes.map Prod.snd

/-- The failure codes of jeti_core.h: every code except `JETI_SUCCESS`. -/
def coreFailureCodes : List (String × Nat) :=
  jeti_core_h_codes.filter fun c => c.1 != "JETI_SUCCESS"

/-- The value a code has as a 32-bit `DWORD`. -/
def asDWORD (n : Nat) : Nat := n % 2 ^ 32

/-! ## The error taxonomy of the specification -/

/-- The error taxonomy of the specification (section 7), by kind. -/
inductive ErrorKind where
  | AlreadyOpen | TransportOpenFailed | TransportConfigFailed | SendFailed
  | Timeout | Aborted | ReceiveFailed | Rejected | ConversionFailed
  | InvalidArgument | Busy | ChecksumMismatch | InvalidStepwidth
  | InvalidDeviceIndex | NotConnected | InvalidHandle
  | InvalidCalibrationSlot | CalibrationNotRead | Overexposure
  | MeasurementFailed | AdaptionFailed | CalibrationFileNotFound
  | CalibrationDirectoryUnavailable | NoStraylightLoaded | OutOfMemory
  | SerialNumberUnavailable | InternalError | CalculationError
  | FatalCommunicationError
  deriving DecidableEq

/-- Every member of the taxonomy, in the order of the specification. -/
def ErrorKind.all : List ErrorKind :=
  [.AlreadyOpen, .TransportOpenFailed, .TransportConfigFailed, .SendFailed,
   .Timeout, .Aborted, .ReceiveFailed, .Rejected, .ConversionFailed,
   .InvalidArgument, .Busy, .ChecksumMismatch, .InvalidStepwidth,
   .InvalidDeviceIndex, .NotConnected, .InvalidHandle,
   .InvalidCalibrationSlot, .CalibrationNotRead, .Overexposure,
   .MeasurementFailed, .AdaptionFailed, .CalibrationFileNotFound,
   .CalibrationDirectoryUnavailable, .NoStraylightLoaded, .OutOfMemory,
   .SerialNumberUnavailable, .InternalError, .CalculationError,
   .FatalCommunicationError]

/-- The outcome code of jeti_core.h that a taxonomy member stands for, matched
by the meaning given in the comment of each `#define`. -/
def ErrorKind.code : ErrorKind → Nat
  | .AlreadyOpen => JETI_ERROR_OPEN
  | .TransportOpenFailed => JETI_ERROR_OPEN_PORT
  | .TransportConfigFailed => JETI_ERROR_PORT_SETTING
  | .SendFailed => JETI_ERROR_SEND
  | .Timeout => JETI_TIMEOUT
  | .Aborted => JETI_BREAK
  | .ReceiveFailed => JETI_ERROR_RECEIVE
  | .Rejected => JETI_ERROR_NAK
  | .ConversionFailed => JETI_ERROR_CONVERT
  | .InvalidArgument => JETI_ERROR_PARAMETER
  | .Busy => JETI_BUSY
  | .ChecksumMismatch => JETI_CHECKSUM_ERROR
  | .InvalidStepwidth => JETI_INVALID_STEPWIDTH
  | .InvalidDeviceIndex => JETI_INVALID_NUMBER
  | .NotConnected => JETI_NOT_CONNECTED
  | .InvalidHandle => JETI_INVALID_HANDLE
  | .InvalidCalibrationSlot => JETI_INVALID_CALIB
  | .CalibrationNotRead => JETI_CALIB_NOT_READ
  | .Overexposure => JETI_OVEREXPOSURE
  | .MeasurementFailed => JETI_MEASURE_FAIL
  | .AdaptionFailed => JETI_ADAPTION_FAIL
  | .CalibrationFileNotFound => JETI_FILE_NOT_FOUND
  | .CalibrationDirectoryUnavailable => JETI_NO_SLM_DIR
  | .NoStraylightLoaded => JETI_NO_STRAYLIGHT
  | .OutOfMemory => JETI_NO_MEM
  | .SerialNumberUnavailable => JETI_NO_SN
  | .InternalError => JETI_DLL_ERROR
  | .CalculationError => JETI_CALC_ERROR
  | .FatalCommunicationError => JETI_FATAL_ERROR

/-- The taxonomy members that stand for the outcome code `c`. -/
def kindsOf (c : Nat) : List ErrorKind :=
  ErrorKind.all.filter fun k => k.code == c

/-! ## The fields of the ParameterSet -/

/-- The nine fields of the ParameterSet of the specification (section 3). -/
inductive ParamField where
  | pixelCount | pixelBinning | fitOrder | syncDelay | adcResolution
  | splitTime | distance | averaging | borderRange
  deriving DecidableEq

/-- The part of the accessor names of jeti_core.h that names the field
(lines 79-89 and 172-173). -/
def ParamField.root : ParamField → String
  | .pixelCount => "Pixel"
  | .pixelBinning => "PixelBinning"
  | .fitOrder => "Fit"
  | .syncDelay => "SDelay"
  | .adcResolution => "ADCRes"
  | .splitTime => "SplitTime"
  | .distance => "Distance"
  | .averaging => "AverConf"
  | .borderRange => "Border"

/-- The name of the Get operation of a field. -/
def ParamField.getter (f : ParamField) : String := "JETI_Get" ++ f.root

/-- The name of the Set operation of a field. -/
def ParamField.setter (f : ParamField) : String := "JETI_Set" ++ f.root

/-- The spectrum kinds that can be resampled (jeti_core.h, lines 203-210). -/
def spectrumKinds : List String := ["Dark", "Light", "Refer", "TransRefl"]

/-- The parameter types shared by the resampling operations: device handle,
`DWORD` begin, `DWORD` end, `FLOAT` step, `FLOAT*` output. -/
def resampleParamTypes : List (CType × Bool) :=
  [(CType.DWORD_PTR, false), (CType.DWORD, false), (CType.DWORD, false),
   (CType.FLOAT, false), (CType.FLOAT, true)]

/-! ## Calibration store

The headers declare `JETI_ReadCalib`, `JETI_WriteCalib` and `JETI_DeleteCalib`
(jeti_core.h, lines 58-60); their bodies are part of jeti_core.dll.  The store
below follows section 3 of the specification. -/

/-- A `double` coefficient, carried as its 64-bit pattern: coefficients are
stored and returned, never computed with. -/
abbrev Coefficient := Nat

/-- Modelled from the spec: the CalibrationEntry of section 3 (the bodies of
`JETI_WriteCalib` and `JETI_ReadCalib` are missing).  One field per data
parameter of `JETI_WriteCalib`: mode tag, remark, wavelength range
(begin, end, step), integration time and one coefficient per sample. -/
structure CalibrationEntry where
  cMode : String
  cRemark : String
  dwBegin : Nat
  dwEnd : Nat
  dwStep : Nat
  dwTint : Nat
  dValue : List Coefficient
  deriving DecidableEq

/-- Modelled from the spec: the coefficient count `(end-begin)/step + 1` of a
CalibrationEntry (section 3), with the integer division of `DWORD`s. -/
def CalibrationEntry.coefficientCount (e : CalibrationEntry) : Nat :=
  (e.dwEnd - e.dwBegin) / e.dwStep + 1

/-- Modelled from the spec: the invariant of a CalibrationEntry (section 3):
`end > begin`, `step > 0`, and as many coefficients as the range has samples. -/
def CalibrationEntry.wellFormed (e : CalibrationEntry) : Bool :=
  decide (e.dwEnd > e.dwBegin) && decide (e.dwStep > 0) &&
    (e.dValue.length == e.coefficientCount)

/-- Modelled from the spec: the calibration slots of one device, by slot
number; `none` is an unset slot. -/
abbrev CalibStore := Nat → Option CalibrationEntry

/-- Modelled from the spec: `JETI_WriteCalib` (body missing).  Writing a full
entry creates the slot or replaces its content; an entry that breaks the
invariant is rejected and the store is left as it was. -/
def JETI_WriteCalib (st : CalibStore) (dwCalibNr : Nat) (e : CalibrationEntry) :
    Nat × CalibStore :=
  if e.wellFormed then
    (JETI_SUCCESS, fun n => if n = dwCalibNr then some e else st n)
  else
    (JETI_ERROR_PARAMETER, st)

/-- Modelled from the spec: `JETI_ReadCalib` (body missing).  Reading returns
the stored entry; reading an unset slot fails with the "not read" condition
and returns nothing.  As in the prototype, the slot number is the only input
besides the device, whose store is `st`. -/
def JETI_ReadCalib (st : CalibStore) (dwCalibNr : Nat) :
    Nat × Option CalibrationEntry :=
  match st dwCalibNr with
  | some e => (JETI_SUCCESS, some e)
  | none => (JETI_CALIB_NOT_READ, none)

/-- Modelled from the spec: `JETI_DeleteCalib` (body missing).  An explicit
delete removes the entry of the slot. -/
def JETI_DeleteCalib (st : CalibStore) (dwCalibNr : Nat) : Nat × CalibStore :=
  (JETI_SUCCESS, fun n => if n = dwCalibNr then none else st n)

/-- A calibration call, as it may occur between a write and a later read. -/
inductive CalibOp where
  | read (dwCalibNr : Nat)
  | write (dwCalibNr : Nat) (e : CalibrationEntry)
  | delete (dwCalibNr : Nat)

/-- The store after one calibration call. -/
def CalibOp.apply (st : CalibStore) : CalibOp → CalibStore
  | .read _ => st
  | .write n e => (JETI_WriteCalib st n e).2
  | .delete n => (JETI_DeleteCalib st n).2

/-- Whether the call is a write or a delete of slot `nr`. -/
def CalibOp.changesSlot (nr : Nat) : CalibOp → Bool
  | .read _ => false
  | .write n _ => n == nr
  | .delete n => n == nr

/-- The store after a sequence of calibration calls. -/
def runCalibOps (st : CalibStore) (ops : List CalibOp) : CalibStore :=
  ops.foldl CalibOp.apply st

/-! ## Measurement state machine

`JETI_Break` is declared in jeti_core.h, line 51; the state machine it acts on
follows section 4.3 of the specification. -/

/-- Modelled from the spec: the states of the measurement state machine of
section 4.3 (the body of `JETI_Break` is missing). -/
inductive MeasurementState where
  | Idle | Adapting | Triggered | Integrating | Reading | Complete
  | Aborted | Failed
  deriving DecidableEq

/-- Modelled from the spec: `JETI_Break` (body missing).  Issued while idle,
Break is a no-op and not an error; from any other state it reaches
`Aborted`.  The result is the outcome of the call and the next state. -/
def JETI_Break (s : MeasurementState) : Nat × MeasurementState :=
  match s with
  | .Idle => (JETI_SUCCESS, .Idle)
  | _ => (JETI_SUCCESS, .Aborted)

/-! ## Correction pipeline

`JETI_ImportSLM`, `JETI_SetSLMEnable` and the operations that return corrected
spectra are declared in jeti_core.h; the pipeline follows section 4.4 of the
specification.  Sample values (`FLOAT`) are kept abstract as a type `F`, the
stray-light matrix as a type `M`. -/

/-- Modelled from the spec: the stray-light part of the engine state (the
bodies of `JETI_SetSLMEnable` and `JETI_ImportSLM` are missing): whether the
correction is enabled, and the matrix once one has been loaded. -/
structure StrayLight (M : Type) where
  bSLMEnable : Bool
  matrix : Option M

/-- The stray-light state at start: correction disabled, no matrix loaded. -/
def StrayLight.initial (M : Type) : StrayLight M := ⟨false, none⟩

/-- Modelled from the spec: `JETI_SetSLMEnable` (body missing): a non-zero
byte enables the correction, zero disables it. -/
def JETI_SetSLMEnable {M : Type} (st : StrayLight M) (bSLMEnable : Nat) :
    Nat × StrayLight M :=
  (JETI_SUCCESS, { st with bSLMEnable := bSLMEnable != 0 })

/-- Modelled from the spec: `JETI_ImportSLM` (body missing).  The file
system is the function `readFile`, which gives the matrix stored under a
path or the failure code (`JETI_FILE_NOT_FOUND`, `JETI_NO_SLM_DIR`,
`JETI_NO_MEM`); a failed import leaves the state as it was. -/
def JETI_ImportSLM {M : Type} (readFile : String → Except Nat M)
    (st : StrayLight M) (cMatrixFile : String) : Nat × StrayLight M :=
  match readFile cMatrixFile with
  | .ok m => (JETI_SUCCESS, { st with matrix := some m })
  | .error c => (c, st)

/-- A call that acts on the stray-light state. -/
inductive SLMOp where
  | setEnable (bSLMEnable : Nat)
  | importSLM (cMatrixFile : String)

/-- The stray-light state after one call. -/
def SLMOp.apply {M : Type} (readFile : String → Except Nat M)
    (st : StrayLight M) : SLMOp → StrayLight M
  | .setEnable b => (JETI_SetSLMEnable st b).2
  | .importSLM path => (JETI_ImportSLM readFile st path).2

/-- Whether the call is an import that succeeds on the file system
`readFile`. -/
def SLMOp.importsMatrix {M : Type} (readFile : String → Except Nat M) :
    SLMOp → Bool
  | .setEnable _ => false
  | .importSLM path =>
    match readFile path with
    | .ok _ => true
    | .error _ => false

/-- The stray-light state after a sequence of calls. -/
def runSLMOps {M : Type} (readFile : String → Except Nat M)
    (st : StrayLight M) (ops : List SLMOp) : StrayLight M :=
  ops.foldl (SLMOp.apply readFile) st

/-- Modelled from the spec: step (3) of the pipeline of section 4.4 (body
missing).  With the correction enabled and a matrix loaded the spectrum is
multiplied by the matrix (`mul`); enabled without a matrix the step fails
with `JETI_NO_STRAYLIGHT`; disabled, the spectrum passes unchanged. -/
def strayLightStep {M F : Type} (mul : M → List F → List F)
    (st : StrayLight M) (s : List F) : Except Nat (List F) :=
  if st.bSLMEnable then
    match st.matrix with
    | some m => .ok (mul m s)
    | none => .error JETI_NO_STRAYLIGHT
  else
    .ok s

/-- The numeric steps of the pipeline that the specification names without
fixing their arithmetic: dark subtraction (1), nonlinearity correction (2),
multiplication by the stray-light matrix (3), application of the calibration
coefficients (4) and resampling (5); steps (4) and (5) may fail. -/
structure PipelineSteps (M F : Type) where
  darkSubtract : List F → List F
  nonlinearity : List F → List F
  strayLightMul : M → List F → List F
  calibrate : List F → Except Nat (List F)
  resample : List F → Except Nat (List F)

/-- Modelled from the spec: the correction pipeline of section 4.4, in its
fixed order (body missing).  The result is the corrected spectrum or the
failure code of the first step that fails. -/
def correctedSpectrum {M F : Type} (P : PipelineSteps M F) (st : StrayLight M)
    (raw : List F) : Except Nat (List F) :=
  match strayLightStep P.strayLightMul st (P.nonlinearity (P.darkSubtract raw)) with
  | .error c => .error c
  | .ok s =>
    match P.calibrate s with
    | .error c => .error c
    | .ok t => P.resample t

/-! ## Resampling

`JETI_CalcLint*`, `JETI_CalcSplin*` and `JETI_GetCalibRange` are declared in
jeti_core.h (lines 203-210 and 61); the range guard follows section 4.4 of the
specification. -/

/-- Modelled from the spec: the native wavelength range of the active
calibration, as `JETI_GetCalibRange` reports it (body missing). -/
structure CalibRange where
  dwBegin : Nat
  dwEnd : Nat
  dwStep : Nat
  deriving DecidableEq

/-- Whether the requested range `[dwBeg, dwEnd]` lies inside the native range
of the calibration. -/
def CalibRange.contains (cal : CalibRange) (dwBeg dwEnd : Nat) : Bool :=
  decide (cal.dwBegin ≤ dwBeg) && decide (dwEnd ≤ cal.dwEnd)

/-- Modelled from the spec: step (5) of the pipeline of section 4.4 (body
missing).  A request outside the native range of the calibration fails with
`JETI_INVALID_STEPWIDTH`; otherwise the native spectrum is interpolated onto
the requested grid by `interp`. -/
def resampleOnto {F : Type} (interp : CalibRange → List F → Nat → Nat → F → List F)
    (cal : CalibRange) (native : List F) (dwBeg dwEnd : Nat) (fStep : F) :
    Except Nat (List F) :=
  if cal.contains dwBeg dwEnd then
    .ok (interp cal native dwBeg dwEnd fStep)
  else
    .error JETI_INVALID_STEPWIDTH

/-- The two interpolation methods, which the specification names without
fixing their arithmetic. -/
structure Interpolation (F : Type) where
  linear : CalibRange → List F → Nat → Nat → F → List F
  spline : CalibRange → List F → Nat → Nat → F → List F

/-- Modelled from the spec: `JETI_CalcLintDark`, `JETI_CalcLintLight`,
`JETI_CalcLintRefer`, `JETI_CalcLintTransRefl` (bodies missing): linear
resampling of the spectrum of one kind. -/
def JETI_CalcLint {F : Type} (I : Interpolation F) (cal : CalibRange)
    (native : List F) (dwBeg dwEnd : Nat) (fStep : F) : Except Nat (List F) :=
  resampleOnto I.linear cal native dwBeg dwEnd fStep

/-- Modelled from the spec: `JETI_CalcSplinDark`, `JETI_CalcSplinLight`,
`JETI_CalcSplinRefer`, `JETI_CalcSplinTransRefl` (bodies missing):
cubic-spline resampling of the spectrum of one kind. -/
def JETI_CalcSplin {F : Type} (I : Interpolation F) (cal : CalibRange)
    (native : List F) (dwBeg dwEnd : Nat) (fStep : F) : Except Nat (List F) :=
  resampleOnto I.spline cal native dwBeg dwEnd fStep

/-! ## Sample inputs -/

/-- The empty calibration store: every slot unset. -/
def emptyCalibStore : CalibStore := fun _ => none

/-- A calibration entry over the range (380, 780, 5) with its 81
coefficients. -/
def sampleEntry : CalibrationEntry :=
  ⟨"R", "lamp", 380, 780, 5, 100, List.range 81⟩

/-- Calls on other slots, and a read of slot 3. -/
def sampleCalibOps : List CalibOp :=
  [.write 4 ⟨"T", "", 400, 700, 100, 50, [1, 2, 3, 4]⟩, .delete 5, .read 3]

/-- A file system on which no stray-light matrix can be read. -/
def noMatrixFile : String → Except Nat Unit := fun _ => .error JETI_FILE_NOT_FOUND

/-- A failed import followed by enabling the correction. -/
def sampleSLMOps : List SLMOp := [.importSLM "slm.bin", .setEnable 1]

/-- Pipeline steps over integer samples that leave the spectrum as it is. -/
def idSteps : PipelineSteps Unit Int :=
  ⟨id, id, fun _ s => s, fun s => .ok s, fun s => .ok s⟩

/-- Interpolation kernels over integer samples that return the native
spectrum. -/
def idInterpolation : Interpolation Int :=
  ⟨fun _ s _ _ _ => s, fun _ s _ _ _ => s⟩

/-! ## Device binding of the prototypes -/

/-- Whether the first parameter of `p` is the device handle,
`DWORD_PTR dwDevice`. -/
def Proto.takesHandleFirst (p : Proto) : Bool :=
  p.params.head? == some (val CType.DWORD_PTR "dwDevice")

/-- Whether some parameter of `p` is a `DWORD_PTR` passed by value. -/
def Proto.takesHandle (p : Proto) : Bool :=
  p.params.any fun q => q.ty == CType.DWORD_PTR && !q.isPtr

/-- Device enumeration: the operations that count the devices or describe
the device with a given number (`JETI_GetNum…`, `JETI_GetSerial…`,
`JETI_GetDeviceInfo…`). -/
def Proto.isEnumeration (p : Proto) : Bool :=
  p.nameStartsWith "JETI_GetNum" || p.nameStartsWith "JETI_GetSerial" ||
    p.nameStartsWith "JETI_GetDeviceInfo"

/-- The Open operations (`JETI_Open…`). -/
def Proto.isOpen (p : Proto) : Bool := p.nameStartsWith "JETI_Open"

/-- The DLL version queries (`JETI_Get…DLLVersion`). -/
def Proto.isVersionQuery (p : Proto) : Bool := p.nameContains "DLLVersion"

/-- The parameters of a DLL version query: three `WORD*` outputs. -/
def versionParams : List Param :=
  [ptr CType.WORD "wMajorVersion", ptr CType.WORD "wMinorVersion",
   ptr CType.WORD "wBuildNumber"]

/-- The parameter types of an x,y-chromaticity operation: device handle,
`FLOAT*`, `FLOAT*`. -/
def chromxyParamTypes : List (CType × Bool) :=
  [(CType.DWORD_PTR, false), (CType.FLOAT, true), (CType.FLOAT, true)]

/-- Whether the first list is a subsequence of the second: its elements
occur in the second list in the same order, not necessarily side by side. -/
def isSubsequence {α : Type} [DecidableEq α] : List α → List α → Bool
  | [], _ => true
  | _ :: _, [] => false
  | a :: as, b :: bs =>
    if a = b then isSubsequence as bs else isSubsequence (a :: as) bs

/-- Whether the header `ex` declares a function called `exName` whose
parameter types contain those of `p` as a subsequence. -/
def extendedBy (ex : List Proto) (p : Proto) (exName : String) : Bool :=
  match lookup ex exName with
  | some q => isSubsequence p.paramTypes q.paramTypes
  | none => false

/-! ## Outcome codes across the headers -/

/-- The names of the codes of a header, in source order. -/
def codeNames (codes : List (String × Nat)) : List String := codes.map Prod.fst

/-- The value a code keeps when it is cut down to one byte. -/
def asBYTE (n : Nat) : Nat := n % 256

/-! ## Calibration grid and dark subtraction -/

/-- The number of grid points `begin`, `begin+step`, `begin+2*step`, … that
do not exceed `end`, counted one by one.  With `step > 0` a grid point
`begin + k*step` that does not exceed `end` has `k ≤ end - begin`, so these
`k` are all that need to be tried. -/
def gridPointCount (dwBegin dwEnd dwStep : Nat) : Nat :=
  ((List.range (dwEnd - dwBegin + 1)).filter
    fun k => decide (dwBegin + k * dwStep ≤ dwEnd)).length

/-- The calibration entry with the widest range and the finest step that
`DWORD`s allow: begin 0, end 4294967295, step 1. -/
def fullRangeEntry : CalibrationEntry :=
  ⟨"", "", 0, 4294967295, 1, 0, []⟩

/-- Modelled from the spec: step (1) of the pipeline of section 4.4,
dark-count subtraction (body missing).  Pixel by pixel the dark count is
subtracted from the raw count; counts are `INT32` values, the difference is
taken in the integers. -/
def darkSubtraction (r d : List Int) : List Int :=
  List.zipWith (fun a b => a - b) r d

/-- The all-zero frame of `n` pixels. -/
def zeroFrame (n : Nat) : List Int := List.replicate n 0

/-! ## Reading a calibration entry with an expected count -/

/-- C1: the 34 outcome codes of jeti_core.h (`JETI_SUCCESS` and 33 failure
codes) have pairwise different names and pairwise different values as 32-bit
`DWORD`s.  In particular no failure code equals `JETI_SUCCESS`, which is 0;
`JETI_CHECKSUM_ERROR` and `JETI_TIMEOUT` each differ from every other code;
`JETI_OVEREXPOSURE` differs from `JETI_MEASURE_FAIL`; and
`JETI_FILE_NOT_FOUND`, `JETI_NO_SLM_DIR`, `JETI_NO_STRAYLIGHT`, `JETI_NO_MEM`
are four different values. -/
theorem C1_outcome_codes_pairwise_distinct :
    jeti_core_h_codes.length = 34 ∧
    coreFailureCodes.length = 33 ∧
    (jeti_core_h_codes.map Prod.fst).Nodup ∧
    (coreCodeValues.map asDWORD).Nodup ∧
    JETI_SUCCESS = 0 ∧
    (∀ c ∈ coreFailureCodes, asDWORD c.2 ≠ asDWORD JETI_SUCCESS) ∧
    (∀ c ∈ jeti_core_h_codes, c.1 ≠ "JETI_CHECKSUM_ERROR" →
      asDWORD c.2 ≠ asDWORD JETI_CHECKSUM_ERROR) ∧
    (∀ c ∈ jeti_core_h_codes, c.1 ≠ "JETI_TIMEOUT" →
      asDWORD c.2 ≠ asDWORD JETI_TIMEOUT) ∧
    asDWORD JETI_OVEREXPOSURE ≠ asDWORD JETI_MEASURE_FAIL ∧
    ([JETI_FILE_NOT_FOUND, JETI_NO_SLM_DIR, JETI_NO_STRAYLIGHT, JETI_NO_MEM].map
      asDWORD).Nodup := by
  decide!

/-- C2, as stated, fails: `JETI_ERROR_BUFFER_SIZE` is a failure code of
jeti_core.h, and no member of the error taxonomy stands for it. -/
theorem C2_buffer_size_has_no_taxonomy_member :
    ("JETI_ERROR_BUFFER_SIZE", JETI_ERROR_BUFFER_SIZE) ∈ coreFailureCodes ∧
    ¬ ∃ k : ErrorKind, k.code = JETI_ERROR_BUFFER_SIZE := by
  refine ⟨by decide!, ?_⟩
  rintro ⟨k, hk⟩
  cases k <;> exact absurd hk (by decide)

/-- C2, amended: the 29 members of the error taxonomy stand for 29 different
failure codes of jeti_core.h, so an outcome carries at most one member; every
failure code carries exactly one member, except `JETI_ERROR_BUFFER_SIZE`,
`JETI_ERROR_PURGE`, `JETI_ERROR_TIMEOUT_SETTING` and `JETI_ERROR_READ`, which
carry none. -/
theorem C2_taxonomy_covers_all_but_four_codes :
    (∀ k : ErrorKind, k ∈ ErrorKind.all) ∧
    ErrorKind.all.length = 29 ∧
    (ErrorKind.all.map ErrorKind.code).Nodup ∧
    (∀ k ∈ ErrorKind.all, k.code ∈ coreFailureCodes.map Prod.snd) ∧
    (∀ c ∈ coreFailureCodes,
      (kindsOf c.2).length =
        if c.1 ∈ ["JETI_ERROR_BUFFER_SIZE", "JETI_ERROR_PURGE",
          "JETI_ERROR_TIMEOUT_SETTING", "JETI_ERROR_READ"] then 0 else 1) := by
  refine ⟨?_, by decide!⟩
  intro k
  cases k <;> decide

/-! ## Prototypes -/

/-- C3: each of the 282 prototypes of the four headers has return type
`DWORD`, the outcome code, so that any other result can only come back
through a pointer parameter; and each operation whose name announces a
result (`JETI_Get…`, `JETI_Fetch…`, `JETI_Calc…`, `JETI_Read…`) has at least
one pointer parameter. -/
theorem C3_every_prototype_returns_outcome :
    allPrototypes.length = 282 ∧
    (∀ p ∈ allPrototypes, p.ret = CType.DWORD) ∧
    (∀ p ∈ allPrototypes,
      (p.nameStartsWith "JETI_Get" || p.nameStartsWith "JETI_Fetch" ||
        p.nameStartsWith "JETI_Calc" || p.nameStartsWith "JETI_Read") = true →
      p.hasPointerParam = true) := by
  decide!

/-! ## Calibration store -/

/-- A write to another slot leaves the slot `nr` as it was. -/
theorem writeCalib_other_slot (st : CalibStore) (n nr : Nat) (e : CalibrationEntry)
    (h : n ≠ nr) : (JETI_WriteCalib st n e).2 nr = st nr := by
  unfold JETI_WriteCalib
  split
  · simp [Ne.symm h]
  · rfl

/-- A delete of another slot leaves the slot `nr` as it was. -/
theorem deleteCalib_other_slot (st : CalibStore) (n nr : Nat) (h : n ≠ nr) :
    (JETI_DeleteCalib st n).2 nr = st nr := by
  simp [JETI_DeleteCalib, Ne.symm h]

/-- A successful write stores the entry in its slot. -/
theorem writeCalib_stores (st : CalibStore) (nr : Nat) (e : CalibrationEntry)
    (hw : (JETI_WriteCalib st nr e).1 = JETI_SUCCESS) :
    (JETI_WriteCalib st nr e).2 nr = some e := by
  unfold JETI_WriteCalib at hw ⊢
  split
  · simp
  · rename_i hwf
    rw [if_neg hwf] at hw
    have h13 : JETI_ERROR_PARAMETER ≠ JETI_SUCCESS := by decide
    exact absurd hw h13

/-- Calls that neither write nor delete the slot `nr` leave it as it was. -/
theorem runCalibOps_keeps_slot (ops : List CalibOp) (st : CalibStore) (nr : Nat)
    (h : ∀ op ∈ ops, op.changesSlot nr = false) :
    runCalibOps st ops nr = st nr := by
  induction ops generalizing st with
  | nil => rfl
  | cons op ops ih =>
    have h1 := h op (List.mem_cons_self _ _)
    have h2 : ∀ o ∈ ops, o.changesSlot nr = false :=
      fun o ho => h o (List.mem_cons_of_mem _ ho)
    show runCalibOps (CalibOp.apply st op) ops nr = st nr
    rw [ih _ h2]
    cases op with
    | read n => rfl
    | write n e =>
      exact writeCalib_other_slot st n nr e (by simpa [CalibOp.changesSlot] using h1)
    | delete n =>
      exact deleteCalib_other_slot st n nr (by simpa [CalibOp.changesSlot] using h1)

/-- C4: in the calibration store of the specification, a successful
`JETI_WriteCalib` of an entry to a slot (which succeeds only for an entry with
`end > begin`, `step > 0` and one coefficient per sample), followed by any
calls that neither write nor delete that slot, followed by `JETI_ReadCalib`
of the slot, succeeds and returns the written entry: the same begin, end,
step and every coefficient (and the same mode, remark and tint). -/
theorem C4_calibration_write_read_round_trip (st : CalibStore) (dwCalibNr : Nat)
    (e : CalibrationEntry) (ops : List CalibOp)
    (hw : (JETI_WriteCalib st dwCalibNr e).1 = JETI_SUCCESS)
    (hops : ∀ op ∈ ops, op.changesSlot dwCalibNr = false) :
    JETI_ReadCalib (runCalibOps (JETI_WriteCalib st dwCalibNr e).2 ops) dwCalibNr =
      (JETI_SUCCESS, some e) := by
  unfold JETI_ReadCalib
  rw [runCalibOps_keeps_slot ops _ dwCalibNr hops, writeCalib_stores st dwCalibNr e hw]

/-- C4 at a concrete input: the entry (380, 780, 5) with 81 coefficients is
written to slot 3 of the empty store, slot 4 is written and slot 5 deleted,
and slot 3 reads back as written. -/
theorem C4_calibration_write_read_round_trip_witness :
    (JETI_WriteCalib emptyCalibStore 3 sampleEntry).1 = JETI_SUCCESS ∧
    (∀ op ∈ sampleCalibOps, op.changesSlot 3 = false) ∧
    sampleEntry.dwEnd > sampleEntry.dwBegin ∧ sampleEntry.dwStep > 0 ∧
    JETI_ReadCalib
      (runCalibOps (JETI_WriteCalib emptyCalibStore 3 sampleEntry).2 sampleCalibOps) 3 =
      (JETI_SUCCESS, some sampleEntry) :=
  ⟨by decide, by decide, by decide, by decide,
    C4_calibration_write_read_round_trip emptyCalibStore 3 sampleEntry sampleCalibOps
      (by decide) (by decide)⟩

/-! ## Measurement state machine -/

/-- C5: in the measurement state machine of the specification, Break issued
in `Idle` is a no-op (the state stays `Idle` and the outcome is
`JETI_SUCCESS`); Break issued in any other state leads to `Aborted`; and from
no state does Break lead to `Complete`. -/
theorem C5_break_idle_noop_else_aborted :
    JETI_Break .Idle = (JETI_SUCCESS, .Idle) ∧
    (∀ s : MeasurementState, s ≠ .Idle → (JETI_Break s).2 = .Aborted) ∧
    (∀ s : MeasurementState, (JETI_Break s).2 ≠ .Complete) := by
  refine ⟨rfl, ?_, ?_⟩
  · intro s hs
    cases s <;> first | rfl | exact absurd rfl hs
  · intro s
    cases s <;> decide

/-! ## Correction pipeline -/

/-- Calls among which no import succeeds leave the engine without a
stray-light matrix. -/
theorem runSLMOps_no_matrix {M : Type} (readFile : String → Except Nat M)
    (ops : List SLMOp) (st : StrayLight M) (hst : st.matrix = none)
    (h : ∀ op ∈ ops, op.importsMatrix readFile = false) :
    (runSLMOps readFile st ops).matrix = none := by
  induction ops generalizing st with
  | nil => exact hst
  | cons op ops ih =>
    have h1 := h op (List.mem_cons_self _ _)
    have h2 : ∀ o ∈ ops, o.importsMatrix readFile = false :=
      fun o ho => h o (List.mem_cons_of_mem _ ho)
    show (runSLMOps readFile (SLMOp.apply readFile st op) ops).matrix = none
    apply ih _ _ h2
    cases op with
    | setEnable b => exact hst
    | importSLM path =>
      simp only [SLMOp.importsMatrix] at h1
      simp only [SLMOp.apply, JETI_ImportSLM]
      cases hr : readFile path with
      | ok m =>
        rw [hr] at h1
        exact Bool.noConfusion h1
      | error c => exact hst

/-- With the correction enabled and no matrix loaded the pipeline fails with
`JETI_NO_STRAYLIGHT`. -/
theorem correctedSpectrum_enabled_no_matrix {M F : Type} (P : PipelineSteps M F)
    (st : StrayLight M) (raw : List F) (hen : st.bSLMEnable = true)
    (hno : st.matrix = none) :
    correctedSpectrum P st raw = .error JETI_NO_STRAYLIGHT := by
  simp [correctedSpectrum, strayLightStep, hen, hno]

/-- C6: in the correction pipeline of the specification, after any sequence
of `JETI_SetSLMEnable` and `JETI_ImportSLM` calls from the initial state
among which no import succeeded and after which the correction is enabled,
producing a corrected spectrum fails with `JETI_NO_STRAYLIGHT`: the result is
the failure code and no spectrum, whatever the raw frame and the numeric
steps. -/
theorem C6_enabled_without_matrix_fails {M F : Type} (P : PipelineSteps M F)
    (readFile : String → Except Nat M) (ops : List SLMOp) (raw : List F)
    (hno : ∀ op ∈ ops, op.importsMatrix readFile = false)
    (hen : (runSLMOps readFile (StrayLight.initial M) ops).bSLMEnable = true) :
    correctedSpectrum P (runSLMOps readFile (StrayLight.initial M) ops) raw =
      .error JETI_NO_STRAYLIGHT :=
  correctedSpectrum_enabled_no_matrix P _ raw hen
    (runSLMOps_no_matrix readFile ops _ rfl hno)

/-- C6 at a concrete input: an import that fails, then the correction is
enabled; the pipeline on the frame 1, 2, 3 fails with `JETI_NO_STRAYLIGHT`. -/
theorem C6_enabled_without_matrix_fails_witness :
    (∀ op ∈ sampleSLMOps, op.importsMatrix noMatrixFile = false) ∧
    (runSLMOps noMatrixFile (StrayLight.initial Unit) sampleSLMOps).bSLMEnable = true ∧
    correctedSpectrum idSteps
      (runSLMOps noMatrixFile (StrayLight.initial Unit) sampleSLMOps) [1, 2, 3] =
      .error JETI_NO_STRAYLIGHT :=
  ⟨by decide, by decide,
    C6_enabled_without_matrix_fails idSteps noMatrixFile sampleSLMOps [1, 2, 3]
      (by decide) (by decide)⟩

/-! ## Resampling -/

/-- A request inside the native range is interpolated, not refused. -/
theorem resampleOnto_inside {F : Type}
    (interp : CalibRange → List F → Nat → Nat → F → List F) (cal : CalibRange)
    (native : List F) (dwBeg dwEnd : Nat) (fStep : F)
    (hin : cal.dwBegin ≤ dwBeg ∧ dwEnd ≤ cal.dwEnd) :
    resampleOnto interp cal native dwBeg dwEnd fStep =
      .ok (interp cal native dwBeg dwEnd fStep) := by
  have hc : cal.contains dwBeg dwEnd = true := by
    simpa [CalibRange.contains] using hin
  simp [resampleOnto, hc]

/-- C7: in the resampling step of the specification, a request whose range
`[dwBeg, dwEnd]` is not contained in the native range `[begin, end]` of the
active calibration fails with `JETI_INVALID_STEPWIDTH` and returns no
resampled values, for linear and for spline resampling alike. -/
theorem C7_resampling_never_extrapolates {F : Type} (I : Interpolation F)
    (cal : CalibRange) (native : List F) (dwBeg dwEnd : Nat) (fStep : F)
    (hout : ¬ (cal.dwBegin ≤ dwBeg ∧ dwEnd ≤ cal.dwEnd)) :
    JETI_CalcLint I cal native dwBeg dwEnd fStep = .error JETI_INVALID_STEPWIDTH ∧
    JETI_CalcSplin I cal native dwBeg dwEnd fStep = .error JETI_INVALID_STEPWIDTH := by
  have hc : cal.contains dwBeg dwEnd = false := by
    simpa [CalibRange.contains] using hout
  simp [JETI_CalcLint, JETI_CalcSplin, resampleOnto, hc]

/-- C7 at a concrete input: with the native range (380, 780, 5), the request
350 to 780 fails with `JETI_INVALID_STEPWIDTH`. -/
theorem C7_resampling_never_extrapolates_witness :
    ¬ ((CalibRange.mk 380 780 5).dwBegin ≤ 350 ∧ 780 ≤ (CalibRange.mk 380 780 5).dwEnd) ∧
    JETI_CalcLint idInterpolation ⟨380, 780, 5⟩ [1, 2, 3] 350 780 5 =
      .error JETI_INVALID_STEPWIDTH ∧
    JETI_CalcSplin idInterpolation ⟨380, 780, 5⟩ [1, 2, 3] 350 780 5 =
      .error JETI_INVALID_STEPWIDTH :=
  ⟨by decide,
    C7_resampling_never_extrapolates idInterpolation ⟨380, 780, 5⟩ [1, 2, 3] 350 780 5
      (by decide)⟩

/-! ## Resampling, waiting and parameter operations in the headers -/

/-- C8: for each spectrum kind (Dark, Light, Refer, TransRefl) jeti_core.h
declares `JETI_CalcLint<kind>` and `JETI_CalcSplin<kind>`, each exactly once,
under two different names, with the same parameter list: device handle,
`DWORD` begin, `DWORD` end, `FLOAT` step, `FLOAT*` output. -/
theorem C8_linear_and_spline_resampling_per_kind :
    spectrumKinds = ["Dark", "Light", "Refer", "TransRefl"] ∧
    ∀ k ∈ spectrumKinds,
      countDecl jeti_core_h_prototypes ("JETI_CalcLint" ++ k) = 1 ∧
      countDecl jeti_core_h_prototypes ("JETI_CalcSplin" ++ k) = 1 ∧
      "JETI_CalcLint" ++ k ≠ "JETI_CalcSplin" ++ k ∧
      (lookup jeti_core_h_prototypes ("JETI_CalcLint" ++ k)).map Proto.paramTypes =
        some resampleParamTypes ∧
      (lookup jeti_core_h_prototypes ("JETI_CalcSplin" ++ k)).map Proto.paramTypes =
        some resampleParamTypes ∧
      (lookup jeti_core_h_prototypes ("JETI_CalcLint" ++ k)).map Proto.params =
        (lookup jeti_core_h_prototypes ("JETI_CalcSplin" ++ k)).map Proto.params := by
  decide!

/-- C9, as stated, fails for wait-for-adaption: the headers declare ten
operations whose names mention adaption, and none of them takes a timeout
parameter. -/
theorem C9_no_adaption_operation_takes_timeout :
    namesWhere allPrototypes (fun p => p.nameContains "Adapt") =
      ["JETI_StartAdaption", "JETI_CheckAdaptionStat", "JETI_GetAdaptConf",
       "JETI_SetAdaptConf", "JETI_FetchTiAdapt", "JETI_FetchAverAdapt",
       "JETI_MeasureAdapt", "JETI_MeasureAdaptStatus", "JETI_MeasureAdaptEx",
       "JETI_MeasureAdaptStatusEx"] ∧
    ¬ ∃ p ∈ allPrototypes, p.nameContains "Adapt" = true ∧ p.hasTimeoutParam = true := by
  decide!

/-- C9, amended: wait-for-trigger is offered in two variants, the blocking
`JETI_WaitReadTrigger`, which takes a `DWORD dwTimeout` and returns the
`DWORD` outcome, of which `JETI_TIMEOUT` is a code different from every
other, and the status polls `JETI_MeasureStatusCore` and
`JETI_MeasureStatus` without a timeout parameter.  Wait-for-adaption is
offered as a start operation and a status poll only (`JETI_StartAdaption`
with `JETI_CheckAdaptionStat`, `JETI_MeasureAdapt` with
`JETI_MeasureAdaptStatus`), none with a timeout parameter: the prototypes
that take one are the six listed. -/
theorem C9_trigger_wait_has_timeout_adaption_is_polled :
    lookup jeti_core_h_prototypes "JETI_WaitReadTrigger" =
      some (Proto.mk CType.DWORD "JETI_WaitReadTrigger"
        [val CType.DWORD_PTR "dwDevice", ptr CType.INT32 "iSpec",
         val CType.DWORD "dwTimeout"]) ∧
    ("JETI_TIMEOUT", JETI_TIMEOUT) ∈ jeti_core_h_codes ∧
    (∀ c ∈ jeti_core_h_codes, c.1 ≠ "JETI_TIMEOUT" → c.2 ≠ JETI_TIMEOUT) ∧
    lookup jeti_core_h_prototypes "JETI_MeasureStatusCore" =
      some (Proto.mk CType.DWORD "JETI_MeasureStatusCore"
        [val CType.DWORD_PTR "dwDevice", ptr CType.BOOL "boStatus"]) ∧
    lookup jeti_radio_h_prototypes "JETI_MeasureStatus" =
      some (Proto.mk CType.DWORD "JETI_MeasureStatus"
        [val CType.DWORD_PTR "dwDevice", ptr CType.BOOL "boStatus"]) ∧
    lookup jeti_core_h_prototypes "JETI_StartAdaption" =
      some (Proto.mk CType.DWORD "JETI_StartAdaption"
        [val CType.DWORD_PTR "dwDevice", val CType.BOOL "boReference"]) ∧
    lookup jeti_core_h_prototypes "JETI_CheckAdaptionStat" =
      some (Proto.mk CType.DWORD "JETI_CheckAdaptionStat"
        [val CType.DWORD_PTR "dwDevice", ptr CType.FLOAT "fTint",
         ptr CType.WORD "wAverage", ptr CType.BOOL "boStatus"]) ∧
    lookup jeti_radio_h_prototypes "JETI_MeasureAdapt" =
      some (Proto.mk CType.DWORD "JETI_MeasureAdapt" [val CType.DWORD_PTR "dwDevice"]) ∧
    lookup jeti_radio_h_prototypes "JETI_MeasureAdaptStatus" =
      some (Proto.mk CType.DWORD "JETI_MeasureAdaptStatus"
        [val CType.DWORD_PTR "dwDevice", ptr CType.FLOAT "fTint",
         ptr CType.WORD "wAverage", ptr CType.BOOL "boStatus"]) ∧
    namesWhere allPrototypes Proto.hasTimeoutParam =
      ["JETI_DeviceWrite", "JETI_DeviceRead", "JETI_DeviceReadTerm",
       "JETI_WaitReadTrigger", "JETI_GetTrigTimeout", "JETI_SetTrigTimeout"] := by
  decide!

/-- C10, as stated, fails: the pixel count can be read with `JETI_GetPixel`,
but no header declares `JETI_SetPixel`, nor any Set operation whose name
mentions pixels. -/
theorem C10_pixel_count_has_no_setter :
    ParamField.getter .pixelCount = "JETI_GetPixel" ∧
    declares allPrototypes (ParamField.getter .pixelCount) = true ∧
    ParamField.setter .pixelCount = "JETI_SetPixel" ∧
    declares allPrototypes (ParamField.setter .pixelCount) = false ∧
    namesWhere allPrototypes
      (fun p => p.nameStartsWith "JETI_Set" && p.nameContains "Pix") = [] := by
  decide!

/-- C10, amended: each of the nine fields of the ParameterSet has a Get
operation in jeti_core.h, with a pointer parameter for the value read back.
A Set operation is declared for three of them only: synchronization delay
(`JETI_SetSDelay`), measurement distance (`JETI_SetDistance`) and averaging
(`JETI_SetAverConf`).  For pixel count, pixel binning, fit, ADC resolution,
split time and border range no header declares a Set operation of that name
or one that mentions the field. -/
theorem C10_every_field_read_three_fields_set :
    (∀ f : ParamField,
      (lookup jeti_core_h_prototypes f.getter).map Proto.hasPointerParam = some true) ∧
    (∀ f : ParamField,
      declares allPrototypes f.setter = true ↔
        f ∈ [ParamField.syncDelay, ParamField.distance, ParamField.averaging]) ∧
    namesWhere allPrototypes
      (fun p => p.nameStartsWith "JETI_Set" &&
        (p.nameContains "Pix" || p.nameContains "Fit" || p.nameContains "ADC" ||
          p.nameContains "Split" || p.nameContains "Border")) = [] := by
  refine ⟨?_, ?_, by decide!⟩
  · intro f
    cases f <;> decide!
  · intro f
    cases f <;> decide!

/-! ## Device binding -/

/-- C11, as stated, fails: `JETI_ImportSLM` and `JETI_IgnoreSLM`, which load
the stray-light matrix and set its ignore flag, are neither enumeration nor
Open operations nor version queries, and take no device handle. -/
theorem C11_stray_light_import_takes_no_handle :
    lookup jeti_core_h_prototypes "JETI_ImportSLM" =
      some (Proto.mk CType.DWORD "JETI_ImportSLM" [ptr CType.char "cMatrixFile"]) ∧
    lookup jeti_core_h_prototypes "JETI_IgnoreSLM" =
      some (Proto.mk CType.DWORD "JETI_IgnoreSLM" [val CType.BYTE "bIgnore"]) ∧
    ∃ p ∈ allPrototypes, p.name = "JETI_ImportSLM" ∧ p.isEnumeration = false ∧
      p.isOpen = false ∧ p.isVersionQuery = false ∧ p.takesHandleFirst = false := by
  decide!

/-- C11, amended: every prototype takes the device handle
(`DWORD_PTR dwDevice`) as its first parameter, except device enumeration, the
Open operations, the DLL version queries (23 prototypes, listed) and the
three operations `JETI_SetLicKey`, `JETI_ImportSLM` and `JETI_IgnoreSLM`,
which take no handle at all: the licence key, the stray-light matrix and its
ignore flag are not bound to a device.  The stray-light enable flag is:
`JETI_GetSLMEnable` and `JETI_SetSLMEnable` take the handle first. -/
theorem C11_handle_first_except_enumeration_open_version_and_three :
    namesWhere allPrototypes
      (fun p => !p.takesHandleFirst && !p.isEnumeration && !p.isOpen &&
        !p.isVersionQuery) =
      ["JETI_SetLicKey", "JETI_ImportSLM", "JETI_IgnoreSLM"] ∧
    namesWhere allPrototypes
      (fun p => p.isEnumeration || p.isOpen || p.isVersionQuery) =
      ["JETI_GetNumDevices", "JETI_GetSerialDevice", "JETI_GetDeviceInfo",
       "JETI_GetDeviceInfoEx", "JETI_OpenDevice", "JETI_OpenCOMDevice",
       "JETI_OpenTCPDevice", "JETI_OpenFTDIDevice", "JETI_OpenBTDevice",
       "JETI_OpenBTLEDevice", "JETI_GetCoreDLLVersion", "JETI_GetNumRadio",
       "JETI_GetSerialRadio", "JETI_OpenRadio", "JETI_GetRadioDLLVersion",
       "JETI_GetNumRadioEx", "JETI_GetSerialRadioEx", "JETI_OpenRadioEx",
       "JETI_GetRadioExDLLVersion", "JETI_GetNumSpectroEx",
       "JETI_GetSerialSpectroEx", "JETI_OpenSpectroEx",
       "JETI_GetSpectroExDLLVersion"] ∧
    (∀ p ∈ allPrototypes, p.takesHandleFirst = false → p.takesHandle = false) ∧
    (lookup jeti_core_h_prototypes "JETI_GetSLMEnable").map Proto.takesHandleFirst =
      some true ∧
    (lookup jeti_core_h_prototypes "JETI_SetSLMEnable").map Proto.takesHandleFirst =
      some true := by
  decide!

/-! ## Coefficient count -/

/-- Of the numbers below `n`, those below `m` are `m` many when `m ≤ n`. -/
theorem filter_range_lt (n m : Nat) (h : m ≤ n) :
    ((List.range n).filter fun k => decide (k < m)).length = m := by
  induction n with
  | zero =>
    have hm : m = 0 := by omega
    subst hm
    rfl
  | succ n ih =>
    rw [List.range_succ, List.filter_append, List.length_append]
    by_cases hm : m ≤ n
    · rw [ih hm]
      have hn : ¬ n < m := by omega
      simp [hn]
    · have hmn : m = n + 1 := by omega
      subst hmn
      have hall : (List.range n).filter (fun k => decide (k < n + 1)) = List.range n := by
        apply List.filter_eq_self.2
        intro a ha
        have hlt := List.mem_range.1 ha
        simp
        omega
      rw [hall]
      simp

/-- Counting the grid points one by one gives `(end-begin)/step + 1`. -/
theorem gridPointCount_eq (b e s : Nat) (hbe : b ≤ e) (hs : 0 < s) :
    gridPointCount b e s = (e - b) / s + 1 := by
  unfold gridPointCount
  have hp : (fun k => decide (b + k * s ≤ e)) =
      fun k => decide (k < (e - b) / s + 1) := by
    funext k
    congr 1
    apply propext
    rw [Nat.lt_succ_iff, Nat.le_div_iff_mul_le hs]
    omega
  rw [hp]
  apply filter_range_lt
  have hle := Nat.div_le_self (e - b) s
  omega

/-- C12, as stated, fails: for the range (0, 4294967295, 1), whose begin, end
and step are `DWORD`s with `end > begin` and `step > 0`, the coefficient
count is 4294967296; it does not fit in a `DWORD`, and computed in a `DWORD`
it is 0. -/
theorem C12_full_range_count_exceeds_DWORD :
    fullRangeEntry.dwBegin < fullRangeEntry.dwEnd ∧
    0 < fullRangeEntry.dwStep ∧
    fullRangeEntry.dwEnd < 2 ^ 32 ∧ fullRangeEntry.dwStep < 2 ^ 32 ∧
    fullRangeEntry.coefficientCount = 2 ^ 32 ∧
    ¬ fullRangeEntry.coefficientCount < 2 ^ 32 ∧
    asDWORD fullRangeEntry.coefficientCount = 0 := by
  decide

/-- C12, amended: for `DWORD` begin and end with `end > begin` and
`step > 0`, the coefficient count `(end-begin)/step + 1` is exactly the number
of grid points begin, begin+step, begin+2*step, … that do not exceed end; it
is at least 1 and at most 2^32, and it fits in a `DWORD` unless the range is
(0, 4294967295, 1). -/
theorem C12_coefficient_count_counts_grid_points (e : CalibrationEntry)
    (hbe : e.dwBegin < e.dwEnd) (hs : 0 < e.dwStep) (hend : e.dwEnd < 2 ^ 32) :
    e.coefficientCount = gridPointCount e.dwBegin e.dwEnd e.dwStep ∧
    1 ≤ e.coefficientCount ∧
    e.coefficientCount ≤ 2 ^ 32 ∧
    (e.coefficientCount < 2 ^ 32 ↔
      ¬ (e.dwBegin = 0 ∧ e.dwEnd = 2 ^ 32 - 1 ∧ e.dwStep = 1)) := by
  have h32 : (2 : Nat) ^ 32 = 4294967296 := by norm_num
  have hdiv := Nat.div_le_self (e.dwEnd - e.dwBegin) e.dwStep
  rw [h32] at hend ⊢
  refine ⟨(gridPointCount_eq _ _ _ (Nat.le_of_lt hbe) hs).symm, ?_, ?_, ?_⟩
  · exact Nat.le_add_left 1 _
  · unfold CalibrationEntry.coefficientCount
    omega
  · unfold CalibrationEntry.coefficientCount
    constructor
    · rintro hlt ⟨h0, h1, h2⟩
      rw [h0, h1, h2, Nat.div_one] at hlt
      omega
    · intro hne
      by_cases h1 : e.dwStep = 1
      · rw [h1, Nat.div_one]
        omega
      · have hlt : (e.dwEnd - e.dwBegin) / e.dwStep < e.dwEnd - e.dwBegin :=
          Nat.div_lt_self (by omega) (by omega)
        omega

/-- C12 at a concrete input: for the range (380, 780, 5) the coefficient
count is 81, the number of grid points 380, 385, …, 780. -/
theorem C12_coefficient_count_counts_grid_points_witness :
    sampleEntry.dwBegin < sampleEntry.dwEnd ∧ 0 < sampleEntry.dwStep ∧
    sampleEntry.dwEnd < 2 ^ 32 ∧
    sampleEntry.coefficientCount = 81 ∧
    gridPointCount 380 780 5 = 81 ∧
    (sampleEntry.coefficientCount =
        gridPointCount sampleEntry.dwBegin sampleEntry.dwEnd sampleEntry.dwStep ∧
      1 ≤ sampleEntry.coefficientCount ∧
      sampleEntry.coefficientCount ≤ 2 ^ 32 ∧
      (sampleEntry.coefficientCount < 2 ^ 32 ↔
        ¬ (sampleEntry.dwBegin = 0 ∧ sampleEntry.dwEnd = 2 ^ 32 - 1 ∧
          sampleEntry.dwStep = 1))) :=
  ⟨by decide, by decide, by decide, by decide, by decide!,
    C12_coefficient_count_counts_grid_points sampleEntry (by decide) (by decide)
      (by decide)⟩

/-! ## Reading a calibration entry -/

/-- Subtracting the all-zero frame changes nothing. -/
theorem darkSubtraction_zero (r d : List Int) (h : r.length = d.length) :
    darkSubtraction (darkSubtraction r d) (zeroFrame r.length) =
      darkSubtraction r d := by
  induction r generalizing d with
  | nil => rfl
  | cons a r ih =>
    cases d with
    | nil => rfl
    | cons b d =>
      have hl : r.length = d.length := by simpa using h
      have hr := ih d hl
      simp only [darkSubtraction, zeroFrame, List.length_cons, List.replicate_succ,
        List.zipWith_cons_cons, sub_zero] at hr ⊢
      rw [hr]

/-- Subtracting a dark frame twice subtracts its double. -/
theorem darkSubtraction_twice (r d : List Int) :
    darkSubtraction (darkSubtraction r d) d =
      darkSubtraction r (d.map fun x => 2 * x) := by
  induction r generalizing d with
  | nil => simp [darkSubtraction]
  | cons a r ih =>
    cases d with
    | nil => rfl
    | cons b d =>
      have hr := ih d
      simp only [darkSubtraction, List.zipWith_cons_cons, List.map_cons] at hr ⊢
      rw [hr]
      congr 1
      ring

/-- Subtracting twice agrees with subtracting once and then the zero frame
only for the zero dark frame. -/
theorem darkSubtraction_twice_eq_once_iff (r d : List Int) (h : r.length = d.length) :
    darkSubtraction (darkSubtraction r d) d =
      darkSubtraction (darkSubtraction r d) (zeroFrame r.length) ↔
    d = zeroFrame d.length := by
  induction r generalizing d with
  | nil =>
    cases d with
    | nil => simp [darkSubtraction, zeroFrame]
    | cons b d => simp at h
  | cons a r ih =>
    cases d with
    | nil => simp at h
    | cons b d =>
      have hl : r.length = d.length := by simpa using h
      have hr := ih d hl
      simp only [darkSubtraction, zeroFrame, List.length_cons, List.replicate_succ,
        List.zipWith_cons_cons, List.cons.injEq] at hr ⊢
      rw [hr]
      constructor
      · rintro ⟨h1, h2⟩
        exact ⟨by omega, h2⟩
      · rintro ⟨h1, h2⟩
        exact ⟨by omega, h2⟩

/-- C14, as stated, fails: with raw frame 5 and dark frame 1 (one pixel
each), subtracting the dark frame twice gives 3, subtracting it once and then
the zero frame gives 4. -/
theorem C14_subtracting_twice_differs :
    darkSubtraction (darkSubtraction [5] [1]) [1] = [3] ∧
    darkSubtraction (darkSubtraction [5] [1]) (zeroFrame 1) = [4] ∧
    darkSubtraction (darkSubtraction [5] [1]) [1] ≠
      darkSubtraction (darkSubtraction [5] [1]) (zeroFrame 1) := by
  decide

/-- C14, amended: for a raw frame `r` and a dark frame `d` of the same
length, subtracting the all-zero frame after `d` changes nothing; subtracting
`d` twice subtracts twice the dark counts; and the two results agree exactly
when `d` is the all-zero frame. -/
theorem C14_dark_subtraction_zero_frame_neutral (r d : List Int)
    (h : r.length = d.length) :
    darkSubtraction (darkSubtraction r d) (zeroFrame r.length) = darkSubtraction r d ∧
    darkSubtraction (darkSubtraction r d) d =
      darkSubtraction r (d.map fun x => 2 * x) ∧
    (darkSubtraction (darkSubtraction r d) d =
        darkSubtraction (darkSubtraction r d) (zeroFrame r.length) ↔
      d = zeroFrame d.length) :=
  ⟨darkSubtraction_zero r d h, darkSubtraction_twice r d,
    darkSubtraction_twice_eq_once_iff r d h⟩

/-- C14 at a concrete input: raw frame 100, 250, 90 and dark frame 10, 12, 9. -/
theorem C14_dark_subtraction_zero_frame_neutral_witness :
    [100, 250, 90].length = [10, 12, 9].length ∧
    darkSubtraction [100, 250, 90] [10, 12, 9] = [90, 238, 81] ∧
    (darkSubtraction (darkSubtraction [100, 250, 90] [10, 12, 9])
        (zeroFrame [100, 250, 90].length) =
        darkSubtraction [100, 250, 90] [10, 12, 9] ∧
      darkSubtraction (darkSubtraction [100, 250, 90] [10, 12, 9]) [10, 12, 9] =
        darkSubtraction [100, 250, 90] ([10, 12, 9].map fun x => 2 * x) ∧
      (darkSubtraction (darkSubtraction [100, 250, 90] [10, 12, 9]) [10, 12, 9] =
          darkSubtraction (darkSubtraction [100, 250, 90] [10, 12, 9])
            (zeroFrame [100, 250, 90].length) ↔
        [10, 12, 9] = zeroFrame [10, 12, 9].length)) :=
  ⟨by decide, by decide,
    C14_dark_subtraction_zero_frame_neutral [100, 250, 90] [10, 12, 9] (by decide)⟩

/-! ## Observers, versions, codes and the extended radio layer -/

/-- C15, as stated, fails: jeti_core.h declares `JETI_FetchChromxy`, and no
header declares `JETI_FetchChromxy10`. -/
theorem C15_fetch_chromxy_has_no_ten_degree_counterpart :
    declares jeti_core_h_prototypes "JETI_FetchChromxy" = true ∧
    declares allPrototypes "JETI_FetchChromxy10" = false := by
  decide!

/-- C15, amended: the headers declare seven x,y-chromaticity operations.
`JETI_CalcChromxy` (jeti_core.h), `JETI_Chromxy` (jeti_radio.h) and
`JETI_ChromxyEx` (jeti_radio_ex.h) each have a 10-degree counterpart in the
same header (`Chromxy` replaced by `Chromxy10`) with the same parameter
types: device handle, `FLOAT*`, `FLOAT*`.  `JETI_FetchChromxy` has these
parameter types too, but no 10-degree counterpart. -/
theorem C15_ten_degree_counterparts_except_fetch :
    namesWhere allPrototypes (fun p => p.nameContains "Chromxy") =
      ["JETI_FetchChromxy", "JETI_CalcChromxy", "JETI_CalcChromxy10",
       "JETI_Chromxy", "JETI_Chromxy10", "JETI_ChromxyEx", "JETI_Chromxy10Ex"] ∧
    (lookup jeti_core_h_prototypes "JETI_CalcChromxy").map Proto.paramTypes =
      some chromxyParamTypes ∧
    (lookup jeti_core_h_prototypes "JETI_CalcChromxy10").map Proto.paramTypes =
      some chromxyParamTypes ∧
    (lookup jeti_radio_h_prototypes "JETI_Chromxy").map Proto.paramTypes =
      some chromxyParamTypes ∧
    (lookup jeti_radio_h_prototypes "JETI_Chromxy10").map Proto.paramTypes =
      some chromxyParamTypes ∧
    (lookup jeti_radio_ex_h_prototypes "JETI_ChromxyEx").map Proto.paramTypes =
      some chromxyParamTypes ∧
    (lookup jeti_radio_ex_h_prototypes "JETI_Chromxy10Ex").map Proto.paramTypes =
      some chromxyParamTypes ∧
    (lookup jeti_core_h_prototypes "JETI_FetchChromxy").map Proto.paramTypes =
      some chromxyParamTypes ∧
    declares allPrototypes "JETI_FetchChromxy10" = false := by
  decide!

/-- C16: each of the four headers declares exactly one DLL version query; the
four have different names; and each takes exactly three `WORD*` parameters
(major version, minor version, build number) and no device handle. -/
theorem C16_one_version_triple_per_header :
    namesWhere jeti_core_h_prototypes Proto.isVersionQuery =
      ["JETI_GetCoreDLLVersion"] ∧
    namesWhere jeti_radio_h_prototypes Proto.isVersionQuery =
      ["JETI_GetRadioDLLVersion"] ∧
    namesWhere jeti_radio_ex_h_prototypes Proto.isVersionQuery =
      ["JETI_GetRadioExDLLVersion"] ∧
    namesWhere jeti_spectro_ex_h_prototypes Proto.isVersionQuery =
      ["JETI_GetSpectroExDLLVersion"] ∧
    (namesWhere allPrototypes Proto.isVersionQuery).Nodup ∧
    (∀ p ∈ allPrototypes, p.isVersionQuery = true →
      p.params = versionParams ∧ p.takesHandle = false) := by
  decide!

/-- C17: every code of jeti_radio.h, jeti_radio_ex.h and jeti_spectro_ex.h is
defined in jeti_core.h under the same name with the same value; the three
layer headers define the same names with the same values; no header defines
a name twice; and the names that jeti_core.h defines and the layer headers
do not are exactly `JETI_CALC_ERROR` and `JETI_ERROR_READ`. -/
theorem C17_headers_agree_on_codes :
    (∀ c ∈ jeti_radio_h_codes, c ∈ jeti_core_h_codes) ∧
    (∀ c ∈ jeti_radio_ex_h_codes, c ∈ jeti_core_h_codes) ∧
    (∀ c ∈ jeti_spectro_ex_h_codes, c ∈ jeti_core_h_codes) ∧
    jeti_radio_h_codes = jeti_radio_ex_h_codes ∧
    jeti_radio_ex_h_codes = jeti_spectro_ex_h_codes ∧
    (codeNames jeti_core_h_codes).Nodup ∧
    (codeNames jeti_radio_h_codes).Nodup ∧
    (codeNames jeti_core_h_codes).filter
        (fun n => !(codeNames jeti_radio_h_codes).contains n) =
      ["JETI_CALC_ERROR", "JETI_ERROR_READ"] := by
  decide!

/-- C18, as stated, fails: `JETI_ERROR_READ` is a failure code of jeti_core.h
with value 0x100; cut down to one byte it is 0, the byte of `JETI_SUCCESS`. -/
theorem C18_error_read_truncates_to_success :
    ("JETI_ERROR_READ", JETI_ERROR_READ) ∈ coreFailureCodes ∧
    JETI_ERROR_READ ≠ JETI_SUCCESS ∧
    asBYTE JETI_ERROR_READ = 0 ∧
    asBYTE JETI_ERROR_READ = asBYTE JETI_SUCCESS := by
  decide!

/-- C18, amended: every outcome code of jeti_core.h other than
`JETI_ERROR_READ` is below 256 and so survives being cut down to one byte:
these 33 codes keep pairwise different bytes, and the failure codes among
them keep a byte other than 0.  `JETI_ERROR_READ` is the one code that does
not fit in a byte. -/
theorem C18_codes_fit_one_byte_except_error_read :
    (jeti_core_h_codes.filter fun c => decide (256 ≤ c.2)) =
      [("JETI_ERROR_READ", JETI_ERROR_READ)] ∧
    (∀ c ∈ jeti_core_h_codes, c.1 ≠ "JETI_ERROR_READ" → asBYTE c.2 = c.2) ∧
    (((jeti_core_h_codes.filter fun c => c.1 != "JETI_ERROR_READ").map
      fun c => asBYTE c.2).Nodup) ∧
    (jeti_core_h_codes.filter fun c => c.1 != "JETI_ERROR_READ").length = 33 ∧
    (∀ c ∈ coreFailureCodes, c.1 ≠ "JETI_ERROR_READ" → asBYTE c.2 ≠ 0) := by
  decide!

/-- C19, as stated, fails: jeti_radio.h declares `JETI_GetRadioDLLVersion`,
and jeti_radio_ex.h declares no `JETI_GetRadioDLLVersionEx`. -/
theorem C19_version_query_has_no_Ex_suffix_counterpart :
    declares jeti_radio_h_prototypes "JETI_GetRadioDLLVersion" = true ∧
    declares jeti_radio_ex_h_prototypes ("JETI_GetRadioDLLVersion" ++ "Ex") = false := by
  decide!

/-- C19, amended: for every operation `JETI_<Name>` of jeti_radio.h other than
`JETI_GetRadioDLLVersion`, jeti_radio_ex.h declares `JETI_<Name>Ex`, whose
parameter types contain those of the plain operation as a subsequence in the
same order.  The counterpart of `JETI_GetRadioDLLVersion` is
`JETI_GetRadioExDLLVersion`, with the same parameters. -/
theorem C19_radio_ex_extends_radio :
    jeti_radio_h_prototypes.length = 25 ∧
    (∀ p ∈ jeti_radio_h_prototypes, p.name ≠ "JETI_GetRadioDLLVersion" →
      extendedBy jeti_radio_ex_h_prototypes p (p.name ++ "Ex") = true) ∧
    (lookup jeti_radio_h_prototypes "JETI_GetRadioDLLVersion").map Proto.params =
      some versionParams ∧
    (lookup jeti_radio_ex_h_prototypes "JETI_GetRadioExDLLVersion").map Proto.params =
      some versionParams ∧
    declares jeti_radio_ex_h_prototypes "JETI_GetRadioDLLVersionEx" = false := by
  decide!

end Jeti
